import Mathlib

set_option maxRecDepth 8192

/-!
# Verification of the stable-diffusion-webui remediation scripts

A shallow embedding of the repository's troubleshooting scripts.  Each
script is an independent top-to-bottom procedure that probes the host
environment, shells out to `pip`, writes batch-file launchers, edits
`ui-config.json`, and patches files of the external web application.

The embedding makes the ambient effects explicit:

* the file system is a map from file names to contents (`FS`);
* the outcomes of external operations (subprocess exit status, import
  success, network downloads, CUDA probes) are supplied by an explicit
  environment record per script, one field per external probe/effect;
* each modelled function returns its Python return value together with
  the file-system it leaves behind and/or a trace of the external
  actions it performed, in execution order.

`json.dump`/`json.load` (used on `ui-config.json`) are modelled by an
executable printer and parser over a JSON value type (`Jval`); JSON
numbers are modelled as integers (the configuration values the scripts
touch are strings), and the printer writes non-ASCII characters raw
(Python's `ensure_ascii` escaping round-trips identically).
-/

/-- File system: file name to content.  `none` = the file does not exist. -/
def FS : Type := String → Option String

/-- `open(name, "w")` followed by `f.write content`: create or overwrite. -/
def FS.write (fs : FS) (name content : String) : FS :=
  fun n => if n = name then some content else fs n

/-- Read a file's content, `none` if absent. -/
def FS.read (fs : FS) (name : String) : Option String := fs name

/-- The empty file system. -/
def FS.empty : FS := fun _ => none

/-- Python's `pat in s` on the underlying character lists. -/
def containsSubAux (pat : List Char) : List Char → Bool
  | [] => pat.isEmpty
  | c :: rest => pat.isPrefixOf (c :: rest) || containsSubAux pat rest

/-- Python's substring test `pat in s`. -/
def containsStr (s pat : String) : Bool := containsSubAux pat.data s.data

namespace FixGreyImages

/-- The literal batch-file template of `create_vae_fix_launch_script`
(`src/fix_grey_images.py`, lines 152-176). -/
def script_content : String :=
  "@echo off\n" ++
  "echo Starting WebUI with VAE fixes for grey image issue...\n" ++
  "echo.\n" ++
  "\n" ++
  "REM VAE-specific fixes\n" ++
  "set COMMANDLINE_ARGS=--skip-python-version-check --skip-install\n" ++
  "set COMMANDLINE_ARGS=%COMMANDLINE_ARGS% --precision autocast\n" ++
  "set COMMANDLINE_ARGS=%COMMANDLINE_ARGS% --opt-split-attention\n" ++
  "set COMMANDLINE_ARGS=%COMMANDLINE_ARGS% --medvram\n" ++
  "\n" ++
  "REM Force VAE to not use half precision (fixes grey images)\n" ++
  "set COMMANDLINE_ARGS=%COMMANDLINE_ARGS% --no-half-vae\n" ++
  "\n" ++
  "REM Additional stability flags\n" ++
  "set COMMANDLINE_ARGS=%COMMANDLINE_ARGS% --opt-sub-quad-attention\n" ++
  "\n" ++
  "echo VAE Configuration:\n" ++
  "echo - Forcing full precision VAE (--no-half-vae)\n" ++
  "echo - GPU acceleration enabled\n" ++
  "echo - Memory optimization enabled\n" ++
  "echo - This should fix grey image generation\n" ++
  "echo.\n" ++
  "\n" ++
  "call webui.bat %*\n"

/-- `create_vae_fix_launch_script` (`src/fix_grey_images.py`, lines 148-189):
renders the fixed template to `webui_vae_fixed.bat` and returns `True`. -/
def create_vae_fix_launch_script (fs : FS) : Bool × FS :=
  (true, fs.write "webui_vae_fixed.bat" script_content)

end FixGreyImages

namespace DiagnoseVaeIssue

/-- The literal batch-file template of `create_vae_debug_launch_script`
(`src/diagnose_vae_issue.py`, lines 154-196). -/
def debug_script : String :=
  "@echo off\n" ++
  "echo VAE Debug Launch Script\n" ++
  "echo ========================\n" ++
  "echo.\n" ++
  "\n" ++
  "REM GPU environment variables\n" ++
  "set PYTORCH_CUDA_ALLOC_CONF=max_split_size_mb:512\n" ++
  "set CUDA_LAUNCH_BLOCKING=0\n" ++
  "\n" ++
  "REM Maximum VAE debugging and fixes\n" ++
  "set COMMANDLINE_ARGS=--skip-python-version-check --skip-install\n" ++
  "\n" ++
  "REM Force specific VAE\n" ++
  "set COMMANDLINE_ARGS=%COMMANDLINE_ARGS% --vae-path \"models/VAE/vae-ft-mse-840000-ema-pruned.safetensors\"\n" ++
  "\n" ++
  "REM VAE precision fixes\n" ++
  "set COMMANDLINE_ARGS=%COMMANDLINE_ARGS% --no-half-vae\n" ++
  "set COMMANDLINE_ARGS=%COMMANDLINE_ARGS% --precision full\n" ++
  "\n" ++
  "REM Disable problematic optimizations\n" ++
  "set COMMANDLINE_ARGS=%COMMANDLINE_ARGS% --disable-nan-check\n" ++
  "set COMMANDLINE_ARGS=%COMMANDLINE_ARGS% --no-half\n" ++
  "\n" ++
  "REM GPU optimizations\n" ++
  "set COMMANDLINE_ARGS=%COMMANDLINE_ARGS% --opt-split-attention\n" ++
  "set COMMANDLINE_ARGS=%COMMANDLINE_ARGS% --medvram\n" ++
  "\n" ++
  "REM Enable verbose logging\n" ++
  "set COMMANDLINE_ARGS=%COMMANDLINE_ARGS% --log-startup\n" ++
  "\n" ++
  "echo VAE Debug Configuration:\n" ++
  "echo ==========================\n" ++
  "echo - Forcing specific VAE path\n" ++
  "echo - Full precision mode (no half precision anywhere)\n" ++
  "echo - Disabled NaN checking\n" ++
  "echo - Maximum compatibility mode\n" ++
  "echo - Verbose logging enabled\n" ++
  "echo.\n" ++
  "echo This should definitely fix grey images!\n" ++
  "echo.\n" ++
  "\n" ++
  "call webui.bat %*\n"

/-- The command-line flags the debug launcher's template appends to
`COMMANDLINE_ARGS` (its implicit flag mapping; one entry per
`set COMMANDLINE_ARGS=%COMMANDLINE_ARGS% ...` line of the template,
plus the two initial flags). -/
def debug_flags : List String :=
  ["--skip-python-version-check", "--skip-install",
   "--vae-path \"models/VAE/vae-ft-mse-840000-ema-pruned.safetensors\"",
   "--no-half-vae", "--precision full", "--disable-nan-check", "--no-half",
   "--opt-split-attention", "--medvram", "--log-startup"]

/-- WebUI flags that are absent from the debug launcher's flag mapping. -/
def debug_absent_flags : List String :=
  ["--xformers", "--lowvram", "--precision autocast", "--autolaunch"]

/-- `create_vae_debug_launch_script` (`src/diagnose_vae_issue.py`,
lines 150-205): renders the fixed template to `webui_vae_debug.bat`
and returns `True`. -/
def create_vae_debug_launch_script (fs : FS) : Bool × FS :=
  (true, fs.write "webui_vae_debug.bat" debug_script)

end DiagnoseVaeIssue

namespace FixPytorchCuda

/-- The literal content of `webui_env.bat` written by `update_webui_config`
(`src/fix_pytorch_cuda.py`, lines 168-172). -/
def webui_content : String :=
  "@echo off\n" ++
  "set TORCH_COMMAND=pip install torch==2.6.0 torchvision==0.21.0 --extra-index-url https://download.pytorch.org/whl/cu121\n" ++
  "set COMMANDLINE_ARGS=--skip-python-version-check\n" ++
  "call webui.bat %*\n"

/-- `update_webui_config` (`src/fix_pytorch_cuda.py`, lines 163-179):
overwrites `webui_env.bat` with the fixed template. -/
def update_webui_config (fs : FS) : FS :=
  fs.write "webui_env.bat" webui_content

end FixPytorchCuda

namespace FixPytorchCuda

/-- One entry of `cuda_configs` (`src/fix_pytorch_cuda.py`, lines 53-69). -/
structure CudaConfig where
  version : String
  url : String
  description : String
deriving DecidableEq

/-- The CUDA configurations tried in order of preference (lines 53-69). -/
def cuda_configs : List CudaConfig :=
  [⟨"cu121", "https://download.pytorch.org/whl/cu121", "CUDA 12.1 (matches your system)"⟩,
   ⟨"cu118", "https://download.pytorch.org/whl/cu118", "CUDA 11.8 (fallback)"⟩,
   ⟨"cu124", "https://download.pytorch.org/whl/cu124", "CUDA 12.4 (newer)"⟩]

/-- Environment oracle: the outcomes of the script's external operations. -/
structure Env where
  /-- `import torch` succeeds, i.e. `check_current_pytorch` returns True (lines 16-30). -/
  pytorchInstalled : Bool
  /-- `torch.cuda.is_available()` at `main`'s guard (line 197). -/
  cudaAlreadyAvailable : Bool
  /-- `pip uninstall <pkg> -y` exits non-zero, raising `CalledProcessError` (lines 41-45). -/
  uninstallRaises : String → Bool
  /-- the `pip install` subprocess for a config exits 0 (line 86). -/
  installOk : CudaConfig → Bool
  /-- `verify_cuda()` after installing a config returns True (line 90). -/
  verifyOk : CudaConfig → Bool
  /-- `test_installation()` returns True (lines 199/216). -/
  testOk : Bool

/-- The external actions `fix_pytorch_cuda.py` can perform, in trace order. -/
inductive Action where
  | uninstallPkg (pkg : String)
  | installConfig (c : CudaConfig)
  | verifyCuda
  | testInstall
  | writeEnvBat
deriving DecidableEq

/-- `packages_to_remove` (line 36). -/
def packages_to_remove : List String := ["torch", "torchvision", "torchaudio"]

/-- The loop of `uninstall_current_pytorch` (lines 38-46): runs
`pip uninstall <pkg> -y` for each package; a `CalledProcessError` is caught
(prints "not found or already uninstalled") and the loop continues with the
next package.  Returns the pairs (package, uninstall succeeded) in
execution order. -/
def uninstall_loop (env : Env) : List String → List (String × Bool)
  | [] => []
  | p :: rest =>
    if env.uninstallRaises p then (p, false) :: uninstall_loop env rest
    else (p, true) :: uninstall_loop env rest

/-- `uninstall_current_pytorch` (lines 32-46). -/
def uninstall_current_pytorch (env : Env) : List (String × Bool) :=
  uninstall_loop env packages_to_remove

/-- The actions one iteration of `install_cuda_pytorch`'s loop performs for a
config: run the install command, and run `verify_cuda()` only when the
install subprocess succeeded (lines 85-100). -/
def attemptActions (env : Env) (c : CudaConfig) : List Action :=
  if env.installOk c then [.installConfig c, .verifyCuda] else [.installConfig c]

/-- The loop of `install_cuda_pytorch` (lines 71-102): tries the configs in
order; returns `True` at the first config whose install and CUDA
verification both succeed; a failed install (`CalledProcessError`) or failed
verification `continue`s with the next config, performing no clean-up;
returns `False` when the list is exhausted. -/
def install_loop (env : Env) : List CudaConfig → Bool × List Action
  | [] => (false, [])
  | c :: rest =>
    if env.installOk c then
      if env.verifyOk c then (true, [.installConfig c, .verifyCuda])
      else
        let r := install_loop env rest
        (r.1, .installConfig c :: .verifyCuda :: r.2)
    else
      let r := install_loop env rest
      (r.1, .installConfig c :: r.2)

/-- `install_cuda_pytorch` (lines 48-102). -/
def install_cuda_pytorch (env : Env) : Bool × List Action :=
  install_loop env cuda_configs

/-- Result of `main` (lines 181-239): the trace of external actions, whether
the final "Next steps:" block (lines 232-236) was printed, and the process
exit code (the script never calls `sys.exit` and `main` catches or avoids
every exception, so a run that returns exits with code 0). -/
structure MainResult where
  actions : List Action
  printedNextSteps : Bool
  exitCode : Nat
deriving DecidableEq

/-- `main` (lines 181-239): early-returns when PyTorch is missing (line 192)
or CUDA already works (lines 194-200, running only `test_installation`);
otherwise uninstalls the current PyTorch, installs a CUDA build, and on
success tests it and writes `webui_env.bat`. -/
def main (env : Env) : MainResult :=
  if env.pytorchInstalled then
    if env.cudaAlreadyAvailable then
      { actions := [.testInstall], printedNextSteps := false, exitCode := 0 }
    else
      let unin := uninstall_current_pytorch env
      let inst := install_cuda_pytorch env
      let post : List Action := if inst.1 then [.testInstall, .writeEnvBat] else []
      { actions := (unin.map fun p => Action.uninstallPkg p.1) ++ inst.2 ++ post,
        printedNextSteps := true, exitCode := 0 }
  else
    { actions := [], printedNextSteps := false, exitCode := 0 }

end FixPytorchCuda

namespace FixSgmOpenclip

/-- The four solution strategies of `fix_sgm_openclip.py`'s `main`. -/
inductive Strat where
  | installCompatible
  | createMock
  | patchSgm
  | updateConfig
deriving DecidableEq

/-- Environment oracle: return values of the strategy functions. -/
structure Env where
  /-- `try_install_compatible_openclip()` returns True (lines 17-52). -/
  strategy1Ok : Bool
  /-- `create_mock_openclip()` returns True (lines 54-193). -/
  strategy2Ok : Bool
  /-- `patch_sgm_imports()` returns True (lines 195-249). -/
  strategy3Ok : Bool
  /-- `update_webui_config_for_openclip()` returns True (lines 251-282). -/
  strategy4Ok : Bool
  /-- `test_openclip_import()` returns True (lines 284-302). -/
  testOk : Bool
deriving DecidableEq

/-- Result of `fix_sgm_openclip.py`'s `main`. -/
structure SgmMainResult where
  /-- the strategies whose effect ran, in execution order -/
  stratsRun : List Strat
  /-- the `success` flag after strategies 1 and 2 -/
  success : Bool
  /-- `openclip_works` from the final `test_openclip_import()` -/
  openclipWorks : Bool
  exitCode : Nat
deriving DecidableEq

/-- `main` of `fix_sgm_openclip.py` (lines 304-356): strategy 1 always runs;
strategy 2 runs only when strategy 1 did not succeed (`if not success`,
line 318); strategies 3 (`patch_sgm_imports`) and 4
(`update_webui_config_for_openclip`) run unconditionally (lines 324-330);
then `test_openclip_import` runs and the `FIX SUMMARY` block prints. -/
def main (env : Env) : SgmMainResult :=
  let success1 := env.strategy1Ok
  let afterS2 : Bool × List Strat :=
    if success1 then (success1, [.installCompatible])
    else (env.strategy2Ok, [.installCompatible, .createMock])
  { stratsRun := afterS2.2 ++ [.patchSgm, .updateConfig],
    success := afterS2.1,
    openclipWorks := env.testOk,
    exitCode := 0 }

end FixSgmOpenclip

namespace FixFinalGpuIssues

/-- Outcome of one xFormers installation strategy attempt
(`src/fix_final_gpu_issues.py`, lines 41-89). -/
inductive XfOutcome where
  /-- install subprocess exits 0, `import xformers` and the
  `memory_efficient_attention` import then succeed (lines 63-75) -/
  | ok
  /-- the install subprocess raises `CalledProcessError` (lines 81-83) -/
  | installErr
  /-- the install raises `TimeoutExpired` (lines 84-86) -/
  | timeoutErr
  /-- some other exception is raised during the attempt (lines 87-89) -/
  | otherErr
  /-- install succeeds but the xformers import raises `ImportError` (lines 77-79) -/
  | importFail
deriving DecidableEq

/-- Environment oracle for `try_xformers_alternatives`. -/
structure Env where
  /-- `import torch` succeeds (line 21) -/
  torchInstalled : Bool
  /-- `torch.cuda.is_available()` (line 28) -/
  cudaAvailable : Bool
  /-- the outcome of attempting the strategy with the given name -/
  outcome : String → XfOutcome

/-- The strategy list (lines 33-39): (name, install command). -/
def strategies : List (String × String) :=
  [("Latest xFormers", "xformers"),
   ("Pre-release xFormers", "xformers --pre"),
   ("Development xFormers", "git+https://github.com/facebookresearch/xformers.git"),
   ("Force install latest", "xformers --force-reinstall --no-cache-dir"),
   ("Skip xFormers", "skip")]

/-- External actions of one strategy attempt. -/
inductive XfAction where
  /-- `pip uninstall xformers -y` with `check=False` (lines 52-54) -/
  | preUninstall
  /-- `pip install <cmd>` (lines 57-63) -/
  | installCmd (cmd : String)
deriving DecidableEq

/-- The actions a non-skip strategy attempt performs: it always first
uninstalls previous attempts, then runs its own install command; the
`except` branches only print and `continue`, appending nothing. -/
def xfAttemptActions (cmd : String) : List XfAction :=
  [.preUninstall, .installCmd cmd]

/-- The strategy loop of `try_xformers_alternatives` (lines 41-89): for each
attempted strategy, its name and the external actions it performed, in
order.  The `"skip"` pseudo-strategy returns `False` performing nothing; the
first `.ok` outcome returns `True`; every exception
(`CalledProcessError`, `TimeoutExpired`, anything else) and every failed
module load is caught and the loop continues with the next strategy. -/
def xf_loop (env : Env) : List (String × String) → Bool × List (String × List XfAction)
  | [] => (false, [])
  | (name, cmd) :: rest =>
    if cmd = "skip" then (false, [(name, [])])
    else
      match env.outcome name with
      | .ok => (true, [(name, xfAttemptActions cmd)])
      | _ =>
        let r := xf_loop env rest
        (r.1, (name, xfAttemptActions cmd) :: r.2)

/-- `try_xformers_alternatives` (lines 16-97). -/
def try_xformers_alternatives (env : Env) : Bool × List (String × List XfAction) :=
  if env.torchInstalled then
    if env.cudaAvailable then xf_loop env strategies
    else (false, [])
  else (false, [])

end FixFinalGpuIssues

/-! ## JSON: `json.dump(..., indent=4)` and `json.load`

`fix_grey_images.configure_vae_in_ui_config` reads `ui-config.json` with
`json.load` and rewrites it with `json.dump(ui_config, f, indent=4)`.  The
serializer and parser are modelled executably below.  JSON numbers are
modelled as integers (floating point is outside the embedding; the values
the scripts read and write are strings), and the serializer writes
non-ASCII characters raw where Python's default `ensure_ascii=True` writes
`\uXXXX` escapes — both encodings denote the same string value and
round-trip identically. -/

/-- JSON values as `json.load` produces them. -/
inductive Jval where
  | null
  | bool (b : Bool)
  | int (n : Int)
  | str (s : String)
  | arr (elems : List Jval)
  | obj (members : List (String × Jval))

/-- `indent`-level spaces of `json.dump(..., indent=4)`. -/
def indentChars (n : Nat) : List Char := List.replicate n ' '

/-- the decimal digit character for `d < 10` -/
def digitChar10 (d : Nat) : Char := Char.ofNat (48 + d)

/-- digit accumulator loop: peels decimal digits least-significant first,
prepending them to `acc`; `fuel > n` suffices. -/
def natToCharsAux : Nat → Nat → List Char → List Char
  | 0, _, acc => acc
  | fuel + 1, n, acc =>
    if n < 10 then digitChar10 n :: acc
    else natToCharsAux fuel (n / 10) (digitChar10 (n % 10) :: acc)

/-- decimal digits of a natural number, most significant first -/
def natToChars (n : Nat) : List Char := natToCharsAux (n + 1) n []

/-- decimal rendering of a Python `int` -/
def intToChars (n : Int) : List Char :=
  if n < 0 then '-' :: natToChars n.natAbs else natToChars n.natAbs

/-- lowercase hexadecimal digit character (Python's `\u00xx` escapes are
lowercase) -/
def hexDigitChar (d : Nat) : Char :=
  if d < 10 then Char.ofNat (48 + d) else Char.ofNat (87 + d)

/-- `json.dump`'s escaping of one character inside a string literal. -/
def escChar (c : Char) : List Char :=
  if c = '"' then ['\\', '"']
  else if c = '\\' then ['\\', '\\']
  else if c = '\n' then ['\\', 'n']
  else if c = '\t' then ['\\', 't']
  else if c = '\r' then ['\\', 'r']
  else if c = Char.ofNat 8 then ['\\', 'b']
  else if c = Char.ofNat 12 then ['\\', 'f']
  else if c.toNat < 32 then
    ['\\', 'u', '0', '0', hexDigitChar (c.toNat / 16), hexDigitChar (c.toNat % 16)]
  else [c]

/-- `json.dump`'s escaping of a whole string (without the quotes). -/
def escString (s : List Char) : List Char := (s.map escChar).flatten

mutual

/-- the text `json.dump(v, f, indent=4)` produces at indentation level
`ind`: objects and arrays open with a newline, indent their items by four
more spaces, separate them with `,\n`, and close on a fresh line at the
enclosing indentation; members are rendered `"key": value`. -/
def dumpVal (ind : Nat) : Jval → List Char
  | .null => 'n' :: 'u' :: ['l', 'l']
  | .bool true => 't' :: 'r' :: ['u', 'e']
  | .bool false => 'f' :: 'a' :: ['l', 's', 'e']
  | .int n => intToChars n
  | .str s => '"' :: (escString s.data ++ ['"'])
  | .arr [] => ['[', ']']
  | .arr (v :: tl) =>
      '[' :: '\n' :: (indentChars (ind + 4) ++ dumpVal (ind + 4) v
        ++ dumpElemsTail (ind + 4) tl ++ '\n' :: (indentChars ind ++ [']']))
  | .obj [] => ['\x7b', '\x7d']
  | .obj (kv :: tl) =>
      '\x7b' :: '\n' :: (indentChars (ind + 4) ++ dumpMember (ind + 4) kv
        ++ dumpMembsTail (ind + 4) tl ++ '\n' :: (indentChars ind ++ ['\x7d']))

/-- one object member, `"key": value`. -/
def dumpMember (ind : Nat) : String × Jval → List Char
  | (k, v) => '"' :: (escString k.data ++ '"' :: ':' :: ' ' :: dumpVal ind v)

/-- the remaining array items after the first, each preceded by `,\n` and
the item indentation. -/
def dumpElemsTail (ind : Nat) : List Jval → List Char
  | [] => []
  | v :: tl => ',' :: '\n' :: (indentChars ind ++ dumpVal ind v ++ dumpElemsTail ind tl)

/-- the remaining object members after the first. -/
def dumpMembsTail (ind : Nat) : List (String × Jval) → List Char
  | [] => []
  | kv :: tl => ',' :: '\n' :: (indentChars ind ++ dumpMember ind kv ++ dumpMembsTail ind tl)

end

/-- `json.dump(v, f, indent=4)` as a string. -/
def dumps (v : Jval) : String := String.mk (dumpVal 0 v)

/-- JSON whitespace. -/
def isWsChar (c : Char) : Bool :=
  c == ' ' || c == '\n' || c == '\t' || c == '\r'

/-- skip leading JSON whitespace. -/
def skipWs : List Char → List Char
  | [] => []
  | c :: cs => if isWsChar c then skipWs cs else c :: cs

/-- ASCII decimal digit. -/
def isDigitChar (c : Char) : Bool := 48 ≤ c.toNat && c.toNat ≤ 57

/-- value of a hexadecimal digit character. -/
def hexVal (c : Char) : Option Nat :=
  if 48 ≤ c.toNat ∧ c.toNat ≤ 57 then some (c.toNat - 48)
  else if 97 ≤ c.toNat ∧ c.toNat ≤ 102 then some (c.toNat - 87)
  else if 65 ≤ c.toNat ∧ c.toNat ≤ 70 then some (c.toNat - 55)
  else none

/-- value of a single-character JSON escape. -/
def unescChar (c : Char) : Option Char :=
  if c = '"' then some '"'
  else if c = '\\' then some '\\'
  else if c = '/' then some '/'
  else if c = 'n' then some '\n'
  else if c = 't' then some '\t'
  else if c = 'r' then some '\r'
  else if c = 'b' then some (Char.ofNat 8)
  else if c = 'f' then some (Char.ofNat 12)
  else none

/-- parse a JSON string literal's body (the opening quote already
consumed), returning the decoded characters and the input after the
closing quote. -/
def parseStringBody : List Char → Option (List Char × List Char)
  | [] => none
  | c :: cs =>
    if c = '"' then some ([], cs)
    else if c = '\\' then
      match cs with
      | [] => none
      | e :: cs' =>
        if e = 'u' then
          match cs' with
          | a :: b :: c2 :: d :: cs'' =>
            match hexVal a, hexVal b, hexVal c2, hexVal d with
            | some ha, some hb, some hc, some hd =>
              match parseStringBody cs'' with
              | some (s, r) =>
                  some (Char.ofNat (((ha * 16 + hb) * 16 + hc) * 16 + hd) :: s, r)
              | none => none
            | _, _, _, _ => none
          | _ => none
        else
          match unescChar e with
          | some u =>
            match parseStringBody cs' with
            | some (s, r) => some (u :: s, r)
            | none => none
          | none => none
    else
      match parseStringBody cs with
      | some (s, r) => some (c :: s, r)
      | none => none
/-- numeric value of a digit run, most significant first. -/
def digitsToNat (ds : List Char) : Nat :=
  ds.foldl (fun a c => a * 10 + (c.toNat - 48)) 0

/-- parse a run of decimal digits. -/
def parseNatNum (cs : List Char) : Option (Nat × List Char) :=
  let ds := cs.takeWhile isDigitChar
  if ds.isEmpty then none
  else some (digitsToNat ds, cs.dropWhile isDigitChar)

/-- result of one parsing step, by grammatical production. -/
inductive POut where
  | pv (v : Jval)
  | pkv (kv : String × Jval)
  | pelems (vs : List Jval)
  | pmembs (kvs : List (String × Jval))

/-- which grammatical production `parseCore` parses. -/
inductive PMode where
  | val
  | member
  | arrTail
  | objTail
deriving DecidableEq

/-- fuel-indexed JSON parser (the model of `json.load`), one function so
that recursion is structural on the fuel: `.val` parses a value, `.member`
one object member (key's opening quote consumed), `.arrTail` the items
after an array's first element, `.objTail` the members after an object's
first member. -/
def parseCore : Nat → PMode → List Char → Option (POut × List Char)
  | 0, _, _ => none
  | fuel + 1, .val, cs =>
    match skipWs cs with
    | [] => none
    | c :: rest =>
      if c = 'n' then
        match rest with
        | 'u' :: 'l' :: 'l' :: r => some (.pv .null, r)
        | _ => none
      else if c = 't' then
        match rest with
        | 'r' :: 'u' :: 'e' :: r => some (.pv (.bool true), r)
        | _ => none
      else if c = 'f' then
        match rest with
        | 'a' :: 'l' :: 's' :: 'e' :: r => some (.pv (.bool false), r)
        | _ => none
      else if c = '"' then
        match parseStringBody rest with
        | some (s, r) => some (.pv (.str (String.mk s)), r)
        | none => none
      else if c = '[' then
        match skipWs rest with
        | [] => none
        | c2 :: r2 =>
          if c2 = ']' then some (.pv (.arr []), r2)
          else
            match parseCore fuel .val (c2 :: r2) with
            | some (.pv v, r3) =>
              match parseCore fuel .arrTail r3 with
              | some (.pelems vs, r4) => some (.pv (.arr (v :: vs)), r4)
              | _ => none
            | _ => none
      else if c = '\x7b' then
        match skipWs rest with
        | [] => none
        | c2 :: r2 =>
          if c2 = '\x7d' then some (.pv (.obj []), r2)
          else if c2 = '"' then
            match parseCore fuel .member r2 with
            | some (.pkv kv, r3) =>
              match parseCore fuel .objTail r3 with
              | some (.pmembs kvs, r4) => some (.pv (.obj (kv :: kvs)), r4)
              | _ => none
            | _ => none
          else none
      else if c = '-' then
        match parseNatNum rest with
        | some (m, r) => some (.pv (.int (-(m : Int))), r)
        | none => none
      else
        match parseNatNum (c :: rest) with
        | some (m, r) => some (.pv (.int (m : Int)), r)
        | none => none
  | fuel + 1, .member, cs =>
    match parseStringBody cs with
    | some (k, r1) =>
      match skipWs r1 with
      | [] => none
      | c :: r2 =>
        if c = ':' then
          match parseCore fuel .val r2 with
          | some (.pv v, r3) => some (.pkv (String.mk k, v), r3)
          | _ => none
        else none
    | none => none
  | fuel + 1, .arrTail, cs =>
    match skipWs cs with
    | [] => none
    | c :: r =>
      if c = ']' then some (.pelems [], r)
      else if c = ',' then
        match parseCore fuel .val r with
        | some (.pv v, r2) =>
          match parseCore fuel .arrTail r2 with
          | some (.pelems vs, r3) => some (.pelems (v :: vs), r3)
          | _ => none
        | _ => none
      else none
  | fuel + 1, .objTail, cs =>
    match skipWs cs with
    | [] => none
    | c :: r =>
      if c = '\x7d' then some (.pmembs [], r)
      else if c = ',' then
        match skipWs r with
        | [] => none
        | c2 :: r2 =>
          if c2 = '"' then
            match parseCore fuel .member r2 with
            | some (.pkv kv, r3) =>
              match parseCore fuel .objTail r3 with
              | some (.pmembs kvs, r4) => some (.pmembs (kv :: kvs), r4)
              | _ => none
            | _ => none
          else none
      else none

/-- fuel-indexed JSON value parser. -/
def parseVal (fuel : Nat) (cs : List Char) : Option (Jval × List Char) :=
  match parseCore fuel .val cs with
  | some (.pv v, r) => some (v, r)
  | _ => none

/-- `json.load` on a whole string: parse one value, allow trailing
whitespace only. -/
def loads (s : String) : Option Jval :=
  match parseVal (s.data.length + 1) s.data with
  | some (v, rest) => if (skipWs rest).isEmpty then some v else none
  | none => none

mutual

/-- structural size of a JSON value (payload-independent), used as parser
fuel in the round-trip proof. -/
def Jval.size : Jval → Nat
  | .arr xs => 1 + sizeElems xs
  | .obj kvs => 1 + sizeMembs kvs
  | _ => 1

/-- size of an array tail. -/
def sizeElems : List Jval → Nat
  | [] => 1
  | v :: tl => 1 + v.size + sizeElems tl

/-- size of an object member tail. -/
def sizeMembs : List (String × Jval) → Nat
  | [] => 1
  | kv :: tl => 1 + kv.2.size + sizeMembs tl

end

/-- whitespace-only character list. -/
def wsOnly (w : List Char) : Prop := ∀ c ∈ w, isWsChar c = true

/-- input that cannot extend a decimal number: empty, or starting with a
non-digit. -/
def numSafe : List Char → Prop
  | [] => True
  | c :: _ => isDigitChar c = false

/-- Python dict assignment `d[k] = v`: replace the value at an existing key
in place, else append the binding. -/
def setKey (kvs : List (String × Jval)) (k : String) (v : Jval) :
    List (String × Jval) :=
  if kvs.any (fun p => p.1 == k) then
    kvs.map (fun p => if p.1 == k then (k, v) else p)
  else kvs ++ [(k, v)]

/-- Python dict lookup `d.get(k)`. -/
def getVal (kvs : List (String × Jval)) (k : String) : Option Jval :=
  (kvs.find? (fun p => p.1 == k)).map Prod.snd

/-- `d.get(k, "None") == "None"`: true iff the key is absent (the `"None"`
default compares equal) or its value is the string `"None"`. -/
def isNoneStr : Option Jval → Bool
  | some (.str s) => s == "None"
  | some _ => false
  | none => true

namespace FixGreyImages

/-- the `ui-config.json` file name (`src/fix_grey_images.py`, line 31). -/
def ui_config_file : String := "ui-config.json"

/-- the txt2img Preferred-VAE settings key (line 37). -/
def txt2img_key : String := "txt2img/Preferred VAE/value"

/-- the img2img Preferred-VAE settings key (line 38). -/
def img2img_key : String := "img2img/Preferred VAE/value"

/-- `check_current_vae_config` (lines 26-55): `False` when `ui-config.json`
is missing, unreadable (the raised exception is caught), not a JSON dict
(`.get` raises, caught), or both Preferred-VAE settings are absent or
`"None"`; `True` otherwise. -/
def check_current_vae_config (fs : FS) : Bool :=
  match fs.read ui_config_file with
  | none => false
  | some text =>
    match loads text with
    | none => false
    | some (.obj kvs) =>
      if isNoneStr (getVal kvs txt2img_key) && isNoneStr (getVal kvs img2img_key)
      then false else true
    | some _ => false

/-- `configure_vae_in_ui_config` (lines 119-146): reads the current config
(an empty dict when the file is absent), sets the two Preferred-VAE keys to
`vae_name`, and rewrites the file with `json.dump(..., indent=4)`; returns
`False` writing nothing when reading raises (bad JSON) or the loaded value
is not a dict (the key assignment raises `TypeError`) — both exceptions are
caught by the function's `except`. -/
def configure_vae_in_ui_config (fs : FS) (vae_name : String) : Bool × FS :=
  match fs.read ui_config_file with
  | some text =>
    match loads text with
    | some (.obj kvs) =>
      let kvs2 := setKey (setKey kvs txt2img_key (.str vae_name))
        img2img_key (.str vae_name)
      (true, fs.write ui_config_file (dumps (.obj kvs2)))
    | some _ => (false, fs)
    | none => (false, fs)
  | none =>
    let kvs2 := setKey (setKey [] txt2img_key (.str vae_name))
      img2img_key (.str vae_name)
    (true, fs.write ui_config_file (dumps (.obj kvs2)))

/-- Environment oracle for `fix_grey_images.main`. -/
structure Env where
  /-- the file system at start (holding `ui-config.json` when present) -/
  fs : FS
  /-- names of the VAE files `check_available_vaes` finds under `models/VAE`
  (lines 57-75) -/
  availableVaes : List String
  /-- `download_recommended_vae` (lines 77-117): the downloaded (or already
  present) file's name, or `none` when the download failed -/
  downloadResult : Option String
  /-- `test_vae_configuration()` returns True (lines 191-210) -/
  testOk : Bool

/-- the effects `fix_grey_images.main` can perform. -/
inductive Effect where
  | download
  | configureVae (vae : String)
  | createScript
  | testConfig
deriving DecidableEq

/-- Result of `fix_grey_images.main`. -/
structure MainResult where
  effects : List Effect
  /-- the final `GREY IMAGE FIX SUMMARY` block printed (lines 246-253) -/
  printedSummary : Bool
  fs : FS
  exitCode : Nat

/-- the tail of `main` after a VAE name was obtained (lines 236-263):
configure the VAE only when `check_current_vae_config` returned `False`
(line 237), create the launch script, test, print the summary. -/
def mainRest (env : Env) (vae_configured : Bool) (vae_name : String)
    (pre : List Effect) : MainResult :=
  let step :=
    if vae_configured then (env.fs, pre)
    else
      ((configure_vae_in_ui_config env.fs vae_name).2,
       pre ++ [Effect.configureVae vae_name])
  let r2 := create_vae_fix_launch_script step.1
  { effects := step.2 ++ [.createScript, .testConfig],
    printedSummary := true, fs := r2.2, exitCode := 0 }

/-- `main` (lines 212-266): checks the VAE config and the available VAE
files; with none available it downloads one, returning early on download
failure (line 231) before any configuration, script creation, or summary;
otherwise it proceeds with the first available (or downloaded) VAE name.
The script never calls `sys.exit`, so every return exits with code 0. -/
def main (env : Env) : MainResult :=
  let vae_configured := check_current_vae_config env.fs
  match env.availableVaes with
  | [] =>
    match env.downloadResult with
    | none =>
      { effects := [.download], printedSummary := false, fs := env.fs, exitCode := 0 }
    | some name => mainRest env vae_configured name [.download]
  | v :: _ => mainRest env vae_configured v []

end FixGreyImages

/-- Python's `s.replace(pat, rep)` (leftmost, non-overlapping) on character
lists; the scripts never call it with an empty pattern, which is treated as
no-op. -/
def replaceAux (pat rep : List Char) : List Char → List Char
  | [] => []
  | c :: rest =>
    if !pat.isEmpty && pat.isPrefixOf (c :: rest) then
      rep ++ replaceAux pat rep (rest.drop (pat.length - 1))
    else c :: replaceAux pat rep rest
termination_by l => l.length
decreasing_by
  all_goals simp [List.length_drop]
  all_goals omega

/-- Python's `s.replace(pat, rep)`. -/
def strReplace (s pat rep : String) : String :=
  String.mk (replaceAux pat.data rep.data s.data)

namespace FixSgmOpenclip

/-- the patched SGM file (`src/fix_sgm_openclip.py`, line 199). -/
def sgm_encoder_file : String :=
  "repositories/generative-models/sgm/modules/encoders/modules.py"

/-- the import line searched for (line 217). -/
def old_import : String := "import open_clip"

/-- its replacement (lines 218-232). -/
def new_import : String :=
  "try:\n    import open_clip\n    OPENCLIP_AVAILABLE = True\n" ++
  "except ImportError:\n" ++
  "    print(\"⚠️  open_clip not available - CLIP functionality will be limited\")\n" ++
  "    OPENCLIP_AVAILABLE = False\n" ++
  "    # Create mock open_clip for compatibility\n" ++
  "    class MockOpenCLIP:\n" ++
  "        @staticmethod\n" ++
  "        def create_model(*args, **kwargs):\n" ++
  "            raise ImportError(\"open_clip not available\")\n" ++
  "        @staticmethod\n" ++
  "        def get_tokenizer(*args, **kwargs):\n" ++
  "            raise ImportError(\"open_clip not available\")\n" ++
  "    open_clip = MockOpenCLIP()"

/-- `patch_sgm_imports` (lines 195-249): a missing file returns `False`;
otherwise the file's exact content is first written to `<file>.backup`,
the bare `import open_clip` is replaced when present, and the (possibly
unchanged) content is written back; returns `True`. -/
def patch_sgm_imports (fs : FS) : Bool × FS :=
  match fs.read sgm_encoder_file with
  | none => (false, fs)
  | some content =>
    let fs1 := fs.write (sgm_encoder_file ++ ".backup") content
    let content2 :=
      if containsStr content old_import then strReplace content old_import new_import
      else content
    (true, fs1.write sgm_encoder_file content2)

end FixSgmOpenclip

namespace FixGradioCompatibility

/-- the patched WebUI file (`src/fix_gradio_compatibility.py`, line 81). -/
def extensions_file : String := "modules/gradio_extensons.py"

/-- the already-patched marker (line 92). -/
def patched_marker : String := "Handle Gradio version compatibility"

/-- the needs-patching marker (line 97). -/
def io_component_marker : String := "gr.components.IOComponent"

/-- the patched line (line 106). -/
def old_line : String :=
  "original_IOComponent_init = patches.patch(__name__, obj=gr.components.IOComponent, field=\"__init__\", replacement=IOComponent_init)"

/-- its replacement (lines 107-118). -/
def new_lines : String :=
  "# Handle Gradio version compatibility - IOComponent was renamed to Component in Gradio 4.x\n" ++
  "try:\n" ++
  "    # Try Gradio 3.x API first\n" ++
  "    original_IOComponent_init = patches.patch(__name__, obj=gr.components.IOComponent, field=\"__init__\", replacement=IOComponent_init)\n" ++
  "except AttributeError:\n" ++
  "    # Fallback to Gradio 4.x+ API\n" ++
  "    try:\n" ++
  "        original_IOComponent_init = patches.patch(__name__, obj=gr.components.Component, field=\"__init__\", replacement=IOComponent_init)\n" ++
  "    except AttributeError:\n" ++
  "        # If both fail, create a dummy patch\n" ++
  "        print(\"⚠️  Gradio component patching failed - using fallback\")\n" ++
  "        original_IOComponent_init = None"

/-- `patch_gradio_extensions` (lines 77-133): a missing file returns
`False`; a file already holding the patched marker returns `True` with no
write; a file holding `gr.components.IOComponent` is first backed up to
`<file>.gradio_backup` and then overwritten with the patched content;
anything else returns `True` with no write. -/
def patch_gradio_extensions (fs : FS) : Bool × FS :=
  match fs.read extensions_file with
  | none => (false, fs)
  | some content =>
    if containsStr content patched_marker then (true, fs)
    else if containsStr content io_component_marker then
      let fs1 := fs.write (extensions_file ++ ".gradio_backup") content
      (true, fs1.write extensions_file (strReplace content old_line new_lines))
    else (true, fs)

end FixGradioCompatibility

namespace FixBuildTools

/-- the patched WebUI file (`src/fix_build_tools.py`, line 125). -/
def launch_utils_path : String := "modules/launch_utils.py"

/-- the GitHub-archive open_clip package line (line 141). -/
def old_openclip : String :=
  "openclip_package = os.environ.get(\x27OPENCLIP_PACKAGE\x27, \"https://github.com/mlfoundations/open_clip/archive/bb6e834e9c70d9c27d0dc3ecedeebeaeb1ffad6b.zip\")"

/-- its PyPI replacement (line 142). -/
def new_openclip : String :=
  "openclip_package = os.environ.get(\x27OPENCLIP_PACKAGE\x27, \"open-clip-torch==2.24.0\")"

/-- `modify_webui_packages` (lines 120-160): a missing file returns
`False`; otherwise the file's exact content is first written to
`<file>.backup`, the open_clip package line is replaced when present, and
the (possibly unchanged) content is written back; returns `True`. -/
def modify_webui_packages (fs : FS) : Bool × FS :=
  match fs.read launch_utils_path with
  | none => (false, fs)
  | some content =>
    let fs1 := fs.write (launch_utils_path ++ ".backup") content
    let content2 :=
      if containsStr content old_openclip then
        strReplace content old_openclip new_openclip
      else content
    (true, fs1.write launch_utils_path content2)

end FixBuildTools

/-- Python's `s.find(pat)` as an index (`none` = `-1`, pattern absent). -/
def pyFindAux (pat : List Char) : List Char → Option Nat
  | [] => if pat.isEmpty then some 0 else none
  | c :: rest =>
    if pat.isPrefixOf (c :: rest) then some 0
    else (pyFindAux pat rest).map (· + 1)

/-- `s[:s.find(pat)] + ins + s[s.find(pat):]`, for callers that have checked
`pat in s`: insert `ins` right before the first occurrence of `pat`. -/
def insertBeforeAux (pat ins : List Char) : List Char → List Char
  | [] => []
  | c :: rest =>
    if pat.isPrefixOf (c :: rest) then ins ++ c :: rest
    else c :: insertBeforeAux pat ins rest

namespace FixImageGeneration

/-- the patched file of `patch_webui_image_processing`
(`src/fix_image_generation.py`, line 98). -/
def processing_file : String := "modules/processing.py"

/-- the signature patch 1 searches for (line 117). -/
def old_pattern : String :=
  "def decode_latent_batch(model, batch, target_device=None, check_for_nans=False):"

/-- its replacement (lines 119-126, the signature plus the CPU fix lines). -/
def new_pattern : String :=
  "def decode_latent_batch(model, batch, target_device=None, check_for_nans=False):\n" ++
  "    # CPU-only tensor processing fix for Python 3.13\n" ++
  "    if target_device is None:\n" ++
  "        target_device = torch.device('cpu')\n" ++
  "    \n" ++
  "    # Ensure tensors are on correct device and have correct dtype\n" ++
  "    if hasattr(batch, 'to'):\n" ++
  "        batch = batch.to(device=target_device, dtype=torch.float32)"

/-- the helper function text patch 2 inserts (lines 135-152). -/
def tensor_fix : String :=
  "\n# CPU-only image tensor processing fix\n" ++
  "def fix_tensor_for_cpu(tensor):\n" ++
  "    \"\"\"Fix tensor for CPU-only processing\"\"\"\n" ++
  "    if tensor is None:\n" ++
  "        return None\n" ++
  "    \n" ++
  "    # Ensure tensor is on CPU with correct dtype\n" ++
  "    if hasattr(tensor, 'to'):\n" ++
  "        tensor = tensor.to(device=torch.device('cpu'), dtype=torch.float32)\n" ++
  "    \n" ++
  "    # Ensure contiguous memory layout\n" ++
  "    if hasattr(tensor, 'contiguous'):\n" ++
  "        tensor = tensor.contiguous()\n" ++
  "    \n" ++
  "    return tensor\n\n"

/-- patch 1 fires iff its two substring guards hold (lines 116-118). -/
def patch1_applied (content : String) : Bool :=
  containsStr content "def decode_latent_batch" && containsStr content old_pattern

/-- the content after patch 1, `content.replace(old_pattern, new_pattern)`
when patch 1 fired (line 128). -/
def content1 (content : String) : String :=
  if patch1_applied content then strReplace content old_pattern new_pattern
  else content

/-- patch 2 fires iff its substring guards hold of the (possibly already
once-patched) content (lines 133 and 155). -/
def patch2_applied (content : String) : Bool :=
  containsStr (content1 content) "images_tensor_to_samples"
  && (containsStr (content1 content) "def images_tensor_to_samples"
      && !containsStr (content1 content) "fix_tensor_for_cpu")

/-- the content after both patches: patch 2 inserts `tensor_fix` right
before the first `def images_tensor_to_samples` (lines 156-157). -/
def content2 (content : String) : String :=
  if patch2_applied content then
    String.mk (insertBeforeAux "def images_tensor_to_samples".data
      tensor_fix.data (content1 content).data)
  else content1 content

/-- `patch_webui_image_processing` (lines 93-179).  When `patches_applied >
0` it writes the ALREADY-PATCHED `content` first to
`modules/processing.py.image_gen_backup` and then to the target (lines
161-169): the backup is created only after `content` was mutated at lines
128 and 157, so it holds the post-patch text, not the original. -/
def patch_webui_image_processing (fs : FS) : Bool × FS :=
  match fs.read processing_file with
  | none => (false, fs)
  | some content =>
    if containsStr content "CPU-only tensor processing fix" then (true, fs)
    else if patch1_applied content || patch2_applied content then
      (true, (fs.write (processing_file ++ ".image_gen_backup") (content2 content)).write
        processing_file (content2 content))
    else (true, fs)

/-- the patched file of `patch_webui_images_module` (line 185). -/
def images_file : String := "modules/images.py"

/-- the helper function text the images patch inserts (lines 200-222). -/
def cpu_fix : String :=
  "\n# CPU image processing fix for Python 3.13\n" ++
  "def ensure_cpu_compatible_image(image_data):\n" ++
  "    \"\"\"Ensure image data is compatible with CPU processing\"\"\"\n" ++
  "    if image_data is None:\n" ++
  "        return None\n" ++
  "    \n" ++
  "    # Handle torch tensors\n" ++
  "    if hasattr(image_data, 'detach'):\n" ++
  "        image_data = image_data.detach().cpu()\n" ++
  "    \n" ++
  "    # Handle numpy arrays\n" ++
  "    if isinstance(image_data, np.ndarray):\n" ++
  "        # Ensure correct dtype and range\n" ++
  "        if image_data.dtype != np.uint8:\n" ++
  "            if image_data.max() <= 1.0:\n" ++
  "                image_data = (image_data * 255).astype(np.uint8)\n" ++
  "            else:\n" ++
  "                image_data = image_data.astype(np.uint8)\n" ++
  "    \n" ++
  "    return image_data\n\n"

/-- `content.find('\n\n', content.find('import'))` (line 225).  When
`'import'` is absent, `find` returns `-1` and `find('\n\n', -1)` searches
only from the last character, where the two-character pattern cannot fit, so
the whole expression is `-1` (`none`). -/
def images_import_end (content : String) : Option Nat :=
  match pyFindAux "import".data content.data with
  | none => none
  | some i => (pyFindAux ['\n', '\n'] (content.data.drop i)).map (· + i)

/-- the images-module content with `cpu_fix` spliced in at index `j`
(line 227: `content[:import_end] + cpu_fix + content[import_end:]`). -/
def images_patched (content : String) (j : Nat) : String :=
  String.mk (content.data.take j ++ cpu_fix.data ++ content.data.drop j)

/-- `patch_webui_images_module` (lines 181-246).  Like the processing patch,
it mutates `content` at line 227 and only then writes it to
`modules/images.py.cpu_fix_backup` and to the target (lines 229-236): the
backup holds the post-patch text. -/
def patch_webui_images_module (fs : FS) : Bool × FS :=
  match fs.read images_file with
  | none => (false, fs)
  | some content =>
    if containsStr content "CPU image processing fix" then (true, fs)
    else
      match images_import_end content with
      | some j =>
        if containsStr content "ensure_cpu_compatible_image" then (true, fs)
        else
          (true, (fs.write (images_file ++ ".cpu_fix_backup")
            (images_patched content j)).write images_file (images_patched content j))
      | none => (true, fs)

end FixImageGeneration

/-- Reading a file back right after writing it yields the written content. -/
theorem FS.read_write (fs : FS) (name content : String) :
    (fs.write name content).read name = some content := by
  simp [FS.write, FS.read]

/-- Writing one file leaves every other file's content unchanged. -/
theorem FS.read_write_ne (fs : FS) (name content n : String) (h : n ≠ name) :
    (fs.write name content).read n = fs.read n := by
  simp [FS.write, FS.read, h]

/-- **C5.** The launcher template writer is a pure, deterministic function of
its input mapping: the text it writes does not depend on any prior state, so
two invocations with identical input produce byte-identical launcher text; for
the launcher whose flag mapping contains `precision = full` (the VAE debug
launcher), the produced text contains the literal substring of every flag of
its mapping — in particular `--precision full` — and contains no substring for
any flag absent from the mapping. -/
theorem C5_launcher_writer_pure_and_flag_complete
    (fs₁ fs₂ : FS) (f g : String)
    (hf : f ∈ DiagnoseVaeIssue.debug_flags)
    (hg : g ∈ DiagnoseVaeIssue.debug_absent_flags) :
    ((DiagnoseVaeIssue.create_vae_debug_launch_script fs₁).2.read "webui_vae_debug.bat"
      = (DiagnoseVaeIssue.create_vae_debug_launch_script fs₂).2.read "webui_vae_debug.bat")
    ∧ containsStr DiagnoseVaeIssue.debug_script "--precision full" = true
    ∧ containsStr DiagnoseVaeIssue.debug_script f = true
    ∧ containsStr DiagnoseVaeIssue.debug_script g = false := by
  refine ⟨by simp [DiagnoseVaeIssue.create_vae_debug_launch_script, FS.read_write], by decide, ?_, ?_⟩
  · fin_cases hf <;> decide
  · fin_cases hg <;> decide

/-- Witness for C5 at a concrete flag pair and concrete file systems. -/
theorem C5_witness :
    "--precision full" ∈ DiagnoseVaeIssue.debug_flags
    ∧ "--xformers" ∈ DiagnoseVaeIssue.debug_absent_flags
    ∧ (((DiagnoseVaeIssue.create_vae_debug_launch_script FS.empty).2.read "webui_vae_debug.bat"
        = (DiagnoseVaeIssue.create_vae_debug_launch_script
            (FS.empty.write "webui_vae_debug.bat" "old")).2.read "webui_vae_debug.bat")
      ∧ containsStr DiagnoseVaeIssue.debug_script "--precision full" = true
      ∧ containsStr DiagnoseVaeIssue.debug_script "--precision full" = true
      ∧ containsStr DiagnoseVaeIssue.debug_script "--xformers" = false) :=
  ⟨by decide, by decide,
   C5_launcher_writer_pure_and_flag_complete FS.empty
     (FS.empty.write "webui_vae_debug.bat" "old")
     "--precision full" "--xformers" (by decide) (by decide)⟩

/-- **C6.** The launcher template writer overwrites any existing file of the
same name: whatever the target file held before (including not existing),
after the call its content is exactly the rendered template text —
`update_webui_config` leaves `webui_env.bat` holding exactly its template, and
`create_vae_fix_launch_script` leaves `webui_vae_fixed.bat` holding exactly
its template. -/
theorem C6_launcher_writer_overwrites (fs fs' : FS) :
    (FixPytorchCuda.update_webui_config fs).read "webui_env.bat"
      = some FixPytorchCuda.webui_content
    ∧ (FixGreyImages.create_vae_fix_launch_script fs').2.read "webui_vae_fixed.bat"
      = some FixGreyImages.script_content := by
  constructor
  · simp [FixPytorchCuda.update_webui_config, FS.read_write]
  · simp [FixGreyImages.create_vae_fix_launch_script, FS.read_write]

namespace FixPytorchCuda

/-- Decomposition of the install loop across a prefix of failing configs. -/
theorem install_loop_append_fail (env : Env) (l₁ rest : List CudaConfig)
    (h : ∀ c ∈ l₁, env.installOk c = false ∨ env.verifyOk c = false) :
    install_loop env (l₁ ++ rest)
      = ((install_loop env rest).1,
         (l₁.map (attemptActions env)).flatten ++ (install_loop env rest).2) := by
  induction l₁ with
  | nil => simp
  | cons c tl ih =>
    have hc := h c (by simp)
    have htl : ∀ c' ∈ tl, env.installOk c' = false ∨ env.verifyOk c' = false :=
      fun c' hc' => h c' (by simp [hc'])
    rcases hc with hc | hc
    · simp [install_loop, hc, attemptActions, ih htl]
    · by_cases hi : env.installOk c = true
      · simp [install_loop, hi, hc, attemptActions, ih htl]
      · simp only [Bool.not_eq_true] at hi
        simp [install_loop, hi, attemptActions, ih htl]

/-- An install action in the trace of a list of attempts names one of the
attempted configs. -/
theorem installConfig_mem_attempts {env : Env} {l : List CudaConfig} {c' : CudaConfig}
    (h : Action.installConfig c' ∈ (l.map (attemptActions env)).flatten) : c' ∈ l := by
  induction l with
  | nil => simp at h
  | cons c tl ih =>
    rw [List.map_cons, List.flatten_cons, List.mem_append] at h
    rcases h with h | h
    · unfold attemptActions at h
      split at h <;> simp_all
    · exact List.mem_cons_of_mem _ (ih h)

/-- The uninstall loop attempts every package, whatever raises. -/
theorem uninstall_loop_attempts_all (env : Env) (l : List String) :
    (uninstall_loop env l).map Prod.fst = l := by
  induction l with
  | nil => rfl
  | cons p tl ih => unfold uninstall_loop; split <;> simp [ih]

/-- The install loop never performs an uninstall. -/
theorem install_loop_no_uninstall (env : Env) (l : List CudaConfig) (q : String) :
    Action.uninstallPkg q ∉ (install_loop env l).2 := by
  induction l with
  | nil => simp [install_loop]
  | cons c tl ih =>
    unfold install_loop
    split
    · split
      · simp
      · simpa using ih
    · simpa using ih

end FixPytorchCuda

namespace FixFinalGpuIssues

/-- Decomposition of the xFormers strategy loop across a prefix of failing,
non-skip strategies. -/
theorem xf_loop_append_fail (env : Env) (l₁ rest : List (String × String))
    (h : ∀ p ∈ l₁, p.2 ≠ "skip" ∧ env.outcome p.1 ≠ XfOutcome.ok) :
    xf_loop env (l₁ ++ rest)
      = ((xf_loop env rest).1,
         (l₁.map fun p => (p.1, xfAttemptActions p.2)) ++ (xf_loop env rest).2) := by
  induction l₁ with
  | nil => simp
  | cons p tl ih =>
    obtain ⟨name, cmd⟩ := p
    obtain ⟨hskip, hok⟩ := h (name, cmd) (by simp)
    have htl : ∀ p ∈ tl, p.2 ≠ "skip" ∧ env.outcome p.1 ≠ XfOutcome.ok :=
      fun p hp => h p (by simp [hp])
    cases ho : env.outcome name <;>
      simp [xf_loop, hskip, ho, ih htl] <;> simp_all

/-- The head strategy of the loop is always attempted (its name appears in
the trace), whatever its command and outcome. -/
theorem xf_loop_head_attempted (env : Env) (name cmd : String)
    (rest : List (String × String)) :
    name ∈ ((xf_loop env ((name, cmd) :: rest)).2.map Prod.fst) := by
  unfold xf_loop
  split
  · simp
  · cases env.outcome name <;> simp

/-- Every attempted strategy's recorded actions are exactly its own
pre-uninstall plus its install command (or nothing, for "skip"). -/
theorem xf_loop_attempt_shape (env : Env) (l : List (String × String))
    (n : String) (acts : List XfAction)
    (hmem : (n, acts) ∈ (xf_loop env l).2) :
    acts = [] ∨ ∃ cmd, acts = xfAttemptActions cmd := by
  induction l with
  | nil => simp [xf_loop] at hmem
  | cons p tl ih =>
    obtain ⟨name, cmd⟩ := p
    unfold xf_loop at hmem
    split at hmem
    · simp at hmem
      exact Or.inl hmem.2
    · cases ho : env.outcome name <;> rw [ho] at hmem <;> simp at hmem <;>
        first
        | (rcases hmem with ⟨_, h2⟩ | hmem
           · exact Or.inr ⟨cmd, h2⟩
           · exact ih hmem)
        | exact Or.inr ⟨cmd, hmem.2⟩

end FixFinalGpuIssues

/-- **C1 (counterexample).** The claim's fix_sgm_openclip part fails: with an
environment where strategy 1 (install a compatible open_clip) succeeds and is
verified, `main` still runs the effects of strategies 3 and 4
(`patch_sgm_imports`, `update_webui_config_for_openclip`) — a later attempt's
effect is invoked after an earlier verified success. -/
theorem C1_counterexample_sgm_runs_later_strategy :
    (FixSgmOpenclip.Env.mk true true true true true).strategy1Ok = true
    ∧ (FixSgmOpenclip.main ⟨true, true, true, true, true⟩).success = true
    ∧ FixSgmOpenclip.Strat.patchSgm
        ∈ (FixSgmOpenclip.main ⟨true, true, true, true, true⟩).stratsRun
    ∧ FixSgmOpenclip.Strat.updateConfig
        ∈ (FixSgmOpenclip.main ⟨true, true, true, true, true⟩).stratsRun := by
  decide

/-- **C1 (amended).** In `install_cuda_pytorch` the configs are tried in list
order and iteration stops at the first config whose install and CUDA
verification both succeed: the loop returns `True` with exactly the failing
prefix's attempt actions followed by the successful install and verification,
and no config after the first verified success is ever installed.  Likewise
in `fix_final_gpu_issues`' xformers strategy loop: the strategies are tried
in list order, the loop stops at the first non-skip strategy whose install
and import verification succeed, the trace holds exactly the failing
prefix's attempts followed by that strategy's, and no strategy after the
first verified success is ever attempted.  In `fix_sgm_openclip`'s `main`,
however, only strategy 2 is guarded by an earlier success (its effect runs
iff strategy 1 failed); strategies 3 and 4 run unconditionally, even after a
verified success. -/
theorem C1_first_verified_success_wins
    (env : FixPytorchCuda.Env) (l₁ : List FixPytorchCuda.CudaConfig)
    (c : FixPytorchCuda.CudaConfig) (l₂ : List FixPytorchCuda.CudaConfig)
    (h₁ : ∀ c' ∈ l₁, env.installOk c' = false ∨ env.verifyOk c' = false)
    (h₂ : env.installOk c = true) (h₃ : env.verifyOk c = true)
    (envX : FixFinalGpuIssues.Env) (m₁ : List (String × String))
    (nm cmd : String) (m₂ : List (String × String))
    (h₄ : ∀ p ∈ m₁, p.2 ≠ "skip" ∧ envX.outcome p.1 ≠ FixFinalGpuIssues.XfOutcome.ok)
    (h₅ : cmd ≠ "skip")
    (h₆ : envX.outcome nm = FixFinalGpuIssues.XfOutcome.ok) :
    (FixPytorchCuda.install_loop env (l₁ ++ c :: l₂)
       = (true, (l₁.map (FixPytorchCuda.attemptActions env)).flatten
            ++ [.installConfig c, .verifyCuda]))
    ∧ (∀ c' ∈ l₂, c' ∉ l₁ → c' ≠ c →
        FixPytorchCuda.Action.installConfig c'
          ∉ (FixPytorchCuda.install_loop env (l₁ ++ c :: l₂)).2)
    ∧ (∀ e : FixSgmOpenclip.Env,
        (FixSgmOpenclip.Strat.createMock ∈ (FixSgmOpenclip.main e).stratsRun
          ↔ e.strategy1Ok = false)
        ∧ FixSgmOpenclip.Strat.patchSgm ∈ (FixSgmOpenclip.main e).stratsRun
        ∧ FixSgmOpenclip.Strat.updateConfig ∈ (FixSgmOpenclip.main e).stratsRun)
    ∧ (FixFinalGpuIssues.xf_loop envX (m₁ ++ (nm, cmd) :: m₂)
         = (true, (m₁.map fun p => (p.1, FixFinalGpuIssues.xfAttemptActions p.2))
              ++ [(nm, FixFinalGpuIssues.xfAttemptActions cmd)]))
    ∧ (∀ p ∈ m₂, p.1 ∉ m₁.map Prod.fst → p.1 ≠ nm →
        p.1 ∉ ((FixFinalGpuIssues.xf_loop envX (m₁ ++ (nm, cmd) :: m₂)).2.map
                Prod.fst)) := by
  have hmain : FixPytorchCuda.install_loop env (l₁ ++ c :: l₂)
      = (true, (l₁.map (FixPytorchCuda.attemptActions env)).flatten
          ++ [.installConfig c, .verifyCuda]) := by
    rw [FixPytorchCuda.install_loop_append_fail env l₁ (c :: l₂) h₁]
    simp [FixPytorchCuda.install_loop, h₂, h₃]
  have hxmain : FixFinalGpuIssues.xf_loop envX (m₁ ++ (nm, cmd) :: m₂)
      = (true, (m₁.map fun p => (p.1, FixFinalGpuIssues.xfAttemptActions p.2))
          ++ [(nm, FixFinalGpuIssues.xfAttemptActions cmd)]) := by
    rw [FixFinalGpuIssues.xf_loop_append_fail envX m₁ ((nm, cmd) :: m₂) h₄]
    simp [FixFinalGpuIssues.xf_loop, h₅, h₆]
  refine ⟨hmain, ?_, ?_, hxmain, ?_⟩
  · intro c' _ hnotl₁ hne
    rw [hmain]
    simp only [List.mem_append]
    rintro (hmem | hmem)
    · exact hnotl₁ (FixPytorchCuda.installConfig_mem_attempts hmem)
    · simp at hmem
      exact hne hmem
  · intro e
    cases he : e.strategy1Ok <;> simp [FixSgmOpenclip.main, he]
  · intro p _ hnot hne
    rw [hxmain]
    simp only [List.map_append, List.map_map, List.mem_append, List.map_cons,
      List.map_nil, List.mem_singleton]
    rintro (hmem | hmem)
    · exact hnot (by simpa [Function.comp] using hmem)
    · exact hne hmem

/-- Witness for C1 at concrete environments: the second config is the first
verified success among the three real cuda configs, and the second xformers
strategy is the first verified success among the real strategies. -/
theorem C1_witness :
    (∀ c' ∈ [(⟨"cu121", "https://download.pytorch.org/whl/cu121",
               "CUDA 12.1 (matches your system)"⟩ : FixPytorchCuda.CudaConfig)],
        ({ pytorchInstalled := true, cudaAlreadyAvailable := false,
           uninstallRaises := fun _ => false,
           installOk := fun c => c.version == "cu118",
           verifyOk := fun c => c.version == "cu118",
           testOk := true } : FixPytorchCuda.Env).installOk c' = false
        ∨ ({ pytorchInstalled := true, cudaAlreadyAvailable := false,
             uninstallRaises := fun _ => false,
             installOk := fun c => c.version == "cu118",
             verifyOk := fun c => c.version == "cu118",
             testOk := true } : FixPytorchCuda.Env).verifyOk c' = false)
    ∧ ((FixPytorchCuda.install_loop
          { pytorchInstalled := true, cudaAlreadyAvailable := false,
            uninstallRaises := fun _ => false,
            installOk := fun c => c.version == "cu118",
            verifyOk := fun c => c.version == "cu118", testOk := true }
          FixPytorchCuda.cuda_configs).1 = true)
    ∧ (∀ p ∈ [("Latest xFormers", "xformers")],
        p.2 ≠ "skip"
        ∧ ({ torchInstalled := true, cudaAvailable := true,
             outcome := fun n => if n = "Pre-release xFormers"
               then FixFinalGpuIssues.XfOutcome.ok
               else FixFinalGpuIssues.XfOutcome.installErr }
             : FixFinalGpuIssues.Env).outcome p.1 ≠ FixFinalGpuIssues.XfOutcome.ok)
    ∧ ((FixFinalGpuIssues.try_xformers_alternatives
          { torchInstalled := true, cudaAvailable := true,
            outcome := fun n => if n = "Pre-release xFormers"
              then FixFinalGpuIssues.XfOutcome.ok
              else FixFinalGpuIssues.XfOutcome.installErr }).1 = true) := by
  have h := C1_first_verified_success_wins
    { pytorchInstalled := true, cudaAlreadyAvailable := false,
      uninstallRaises := fun _ => false,
      installOk := fun c => c.version == "cu118",
      verifyOk := fun c => c.version == "cu118", testOk := true }
    [⟨"cu121", "https://download.pytorch.org/whl/cu121", "CUDA 12.1 (matches your system)"⟩]
    ⟨"cu118", "https://download.pytorch.org/whl/cu118", "CUDA 11.8 (fallback)"⟩
    [⟨"cu124", "https://download.pytorch.org/whl/cu124", "CUDA 12.4 (newer)"⟩]
    (by decide) (by decide) (by decide)
    { torchInstalled := true, cudaAvailable := true,
      outcome := fun n => if n = "Pre-release xFormers"
        then FixFinalGpuIssues.XfOutcome.ok
        else FixFinalGpuIssues.XfOutcome.installErr }
    [("Latest xFormers", "xformers")]
    "Pre-release xFormers" "xformers --pre"
    [("Development xFormers", "git+https://github.com/facebookresearch/xformers.git"),
     ("Force install latest", "xformers --force-reinstall --no-cache-dir"),
     ("Skip xFormers", "skip")]
    (by decide) (by decide) (by decide)
  refine ⟨by decide, ?_, by decide, ?_⟩
  · have hconfigs : FixPytorchCuda.cuda_configs
        = [⟨"cu121", "https://download.pytorch.org/whl/cu121", "CUDA 12.1 (matches your system)"⟩]
          ++ (⟨"cu118", "https://download.pytorch.org/whl/cu118", "CUDA 11.8 (fallback)"⟩ : FixPytorchCuda.CudaConfig)
          :: [⟨"cu124", "https://download.pytorch.org/whl/cu124", "CUDA 12.4 (newer)"⟩] := by decide
    rw [hconfigs, h.1]
  · have hstrats : FixFinalGpuIssues.strategies
        = [("Latest xFormers", "xformers")]
          ++ ("Pre-release xFormers", "xformers --pre")
          :: [("Development xFormers", "git+https://github.com/facebookresearch/xformers.git"),
              ("Force install latest", "xformers --force-reinstall --no-cache-dir"),
              ("Skip xFormers", "skip")] := rfl
    have hunf : FixFinalGpuIssues.try_xformers_alternatives
        { torchInstalled := true, cudaAvailable := true,
          outcome := fun n => if n = "Pre-release xFormers"
            then FixFinalGpuIssues.XfOutcome.ok
            else FixFinalGpuIssues.XfOutcome.installErr }
        = FixFinalGpuIssues.xf_loop
            { torchInstalled := true, cudaAvailable := true,
              outcome := fun n => if n = "Pre-release xFormers"
                then FixFinalGpuIssues.XfOutcome.ok
                else FixFinalGpuIssues.XfOutcome.installErr }
            FixFinalGpuIssues.strategies := rfl
    rw [hunf, hstrats, h.2.2.2.1]

/-- **C7.** Each remediation step is wrapped in try/except, so an exception in
one step never prevents the subsequent steps from executing: in
`uninstall_current_pytorch` the loop attempts every package whatever earlier
uninstalls raised, and in `try_xformers_alternatives` a strategy following any
prefix of failing (exception-raising or import-failing, non-skip) strategies
is still attempted. -/
theorem C7_exception_in_step_does_not_stop_later_steps
    (envP : FixPytorchCuda.Env) (l : List String)
    (envX : FixFinalGpuIssues.Env) (l₁ : List (String × String))
    (s : String × String) (l₂ : List (String × String))
    (h : ∀ p ∈ l₁, p.2 ≠ "skip" ∧ envX.outcome p.1 ≠ FixFinalGpuIssues.XfOutcome.ok) :
    ((FixPytorchCuda.uninstall_loop envP l).map Prod.fst = l)
    ∧ s.1 ∈ ((FixFinalGpuIssues.xf_loop envX (l₁ ++ s :: l₂)).2.map Prod.fst) := by
  refine ⟨FixPytorchCuda.uninstall_loop_attempts_all envP l, ?_⟩
  rw [FixFinalGpuIssues.xf_loop_append_fail envX l₁ (s :: l₂) h]
  simp only [List.map_append, List.mem_append]
  exact Or.inr (by
    obtain ⟨name, cmd⟩ := s
    exact FixFinalGpuIssues.xf_loop_head_attempted envX name cmd l₂)

/-- Witness for C7: all three packages raise on uninstall yet all are
attempted, and with the first two xFormers strategies raising
`CalledProcessError` the third is still attempted. -/
theorem C7_witness :
    ((∀ p ∈ [("Latest xFormers", "xformers"), ("Pre-release xFormers", "xformers --pre")],
        p.2 ≠ "skip"
        ∧ ({ torchInstalled := true, cudaAvailable := true,
             outcome := fun _ => FixFinalGpuIssues.XfOutcome.installErr }
            : FixFinalGpuIssues.Env).outcome p.1 ≠ FixFinalGpuIssues.XfOutcome.ok))
    ∧ ((FixPytorchCuda.uninstall_loop
          { pytorchInstalled := true, cudaAlreadyAvailable := false,
            uninstallRaises := fun _ => true, installOk := fun _ => false,
            verifyOk := fun _ => false, testOk := false }
          FixPytorchCuda.packages_to_remove).map Prod.fst
        = FixPytorchCuda.packages_to_remove)
    ∧ ("Development xFormers", "git+https://github.com/facebookresearch/xformers.git").1
        ∈ ((FixFinalGpuIssues.xf_loop
              { torchInstalled := true, cudaAvailable := true,
                outcome := fun _ => FixFinalGpuIssues.XfOutcome.installErr }
              ([("Latest xFormers", "xformers"), ("Pre-release xFormers", "xformers --pre")]
                ++ ("Development xFormers", "git+https://github.com/facebookresearch/xformers.git")
                  :: [("Force install latest", "xformers --force-reinstall --no-cache-dir"),
                      ("Skip xFormers", "skip")])).2.map Prod.fst) := by
  refine ⟨by decide, ?_⟩
  exact C7_exception_in_step_does_not_stop_later_steps
    { pytorchInstalled := true, cudaAlreadyAvailable := false,
      uninstallRaises := fun _ => true, installOk := fun _ => false,
      verifyOk := fun _ => false, testOk := false }
    FixPytorchCuda.packages_to_remove
    { torchInstalled := true, cudaAvailable := true,
      outcome := fun _ => FixFinalGpuIssues.XfOutcome.installErr }
    [("Latest xFormers", "xformers"), ("Pre-release xFormers", "xformers --pre")]
    ("Development xFormers", "git+https://github.com/facebookresearch/xformers.git")
    [("Force install latest", "xformers --force-reinstall --no-cache-dir"),
     ("Skip xFormers", "skip")]
    (by decide)

/-- **C8.** Failed attempts are never rolled back: `install_cuda_pytorch`'s
loop performs no uninstall at all; when every config fails it returns `False`
with a trace that is exactly the attempts' own install/verify actions —
every failed install is left in place; and in the xFormers strategy loop each
attempted strategy contributes exactly its own pre-uninstall and install
command (or nothing, for "skip") — failure handling appends no compensating
action before the next attempt or the final failure report. -/
theorem C8_no_rollback_of_failed_installs
    (env : FixPytorchCuda.Env) (l : List FixPytorchCuda.CudaConfig)
    (h : ∀ c ∈ l, env.installOk c = false ∨ env.verifyOk c = false)
    (envX : FixFinalGpuIssues.Env) (lx : List (String × String))
    (n : String) (acts : List FixFinalGpuIssues.XfAction)
    (hmem : (n, acts) ∈ (FixFinalGpuIssues.xf_loop envX lx).2) :
    (∀ (env' : FixPytorchCuda.Env) (l' : List FixPytorchCuda.CudaConfig) (q : String),
        FixPytorchCuda.Action.uninstallPkg q ∉ (FixPytorchCuda.install_loop env' l').2)
    ∧ FixPytorchCuda.install_loop env l
        = (false, (l.map (FixPytorchCuda.attemptActions env)).flatten)
    ∧ (acts = [] ∨ ∃ cmd, acts = FixFinalGpuIssues.xfAttemptActions cmd) := by
  refine ⟨FixPytorchCuda.install_loop_no_uninstall, ?_,
    FixFinalGpuIssues.xf_loop_attempt_shape envX lx n acts hmem⟩
  have := FixPytorchCuda.install_loop_append_fail env l [] h
  simpa [FixPytorchCuda.install_loop] using this

/-- Witness for C8: every config's install fails, the loop reports failure
with all three failed installs in the trace and nothing uninstalled; the
first xFormers attempt's recorded actions are exactly its own pre-uninstall
plus install. -/
theorem C8_witness :
    ((∀ c ∈ FixPytorchCuda.cuda_configs,
        ({ pytorchInstalled := true, cudaAlreadyAvailable := false,
           uninstallRaises := fun _ => false, installOk := fun _ => true,
           verifyOk := fun _ => false, testOk := false }
          : FixPytorchCuda.Env).installOk c = false
        ∨ ({ pytorchInstalled := true, cudaAlreadyAvailable := false,
             uninstallRaises := fun _ => false, installOk := fun _ => true,
             verifyOk := fun _ => false, testOk := false }
            : FixPytorchCuda.Env).verifyOk c = false)
      ∧ ("Latest xFormers", FixFinalGpuIssues.xfAttemptActions "xformers")
          ∈ (FixFinalGpuIssues.xf_loop
              { torchInstalled := true, cudaAvailable := true,
                outcome := fun _ => FixFinalGpuIssues.XfOutcome.timeoutErr }
              FixFinalGpuIssues.strategies).2)
    ∧ FixPytorchCuda.install_loop
        { pytorchInstalled := true, cudaAlreadyAvailable := false,
          uninstallRaises := fun _ => false, installOk := fun _ => true,
          verifyOk := fun _ => false, testOk := false }
        FixPytorchCuda.cuda_configs
      = (false, (FixPytorchCuda.cuda_configs.map (FixPytorchCuda.attemptActions
          { pytorchInstalled := true, cudaAlreadyAvailable := false,
            uninstallRaises := fun _ => false, installOk := fun _ => true,
            verifyOk := fun _ => false, testOk := false })).flatten) := by
  refine ⟨⟨by decide, by decide⟩, ?_⟩
  exact (C8_no_rollback_of_failed_installs
    { pytorchInstalled := true, cudaAlreadyAvailable := false,
      uninstallRaises := fun _ => false, installOk := fun _ => true,
      verifyOk := fun _ => false, testOk := false }
    FixPytorchCuda.cuda_configs (by decide)
    { torchInstalled := true, cudaAvailable := true,
      outcome := fun _ => FixFinalGpuIssues.XfOutcome.timeoutErr }
    FixFinalGpuIssues.strategies
    "Latest xFormers" (FixFinalGpuIssues.xfAttemptActions "xformers")
    (by decide)).2.1

/-! ## JSON round-trip: auxiliary lemmas -/

theorem skipWs_cons_not_ws {c : Char} (h : isWsChar c = false) (l : List Char) :
    skipWs (c :: l) = c :: l := by
  simp [skipWs, h]

theorem skipWs_append_wsOnly {w : List Char} (h : wsOnly w) (cs : List Char) :
    skipWs (w ++ cs) = skipWs cs := by
  induction w with
  | nil => rfl
  | cons c t ih =>
    have hc := h c (by simp)
    simp only [List.cons_append, skipWs, hc, if_pos]
    exact ih (fun c' hc' => h c' (by simp [hc']))

theorem wsOnly_indentChars (n : Nat) : wsOnly (indentChars n) := by
  intro c hc
  rw [indentChars, List.mem_replicate] at hc
  rw [hc.2]
  decide

theorem wsOnly_newline_indent (n : Nat) : wsOnly ('\n' :: indentChars n) := by
  intro c hc
  rcases List.mem_cons.mp hc with h | h
  · rw [h]; decide
  · exact wsOnly_indentChars n c h

theorem isDigitChar_digitChar10 {d : Nat} (h : d < 10) :
    isDigitChar (digitChar10 d) = true := by
  interval_cases d <;> decide

theorem toNat_digitChar10 {d : Nat} (h : d < 10) : (digitChar10 d).toNat = 48 + d := by
  interval_cases d <;> decide

theorem natToCharsAux_eq (fuel : Nat) :
    ∀ n acc, 0 < n → n < fuel →
      natToCharsAux fuel n acc = ((Nat.digits 10 n).map digitChar10).reverse ++ acc := by
  induction fuel with
  | zero => intro n acc h1 h2; omega
  | succ fuel ih =>
    intro n acc h1 h2
    by_cases h10 : n < 10
    · rw [natToCharsAux, if_pos h10, Nat.digits_def' (by norm_num : 1 < 10) h1,
        Nat.div_eq_of_lt h10, Nat.digits_zero, Nat.mod_eq_of_lt h10]
      simp
    · have hpos : 0 < n / 10 := Nat.div_pos (le_of_not_lt h10) (by norm_num)
      have hlt : n / 10 < fuel := by
        have := Nat.div_lt_self h1 (by norm_num : 1 < 10)
        omega
      rw [natToCharsAux, if_neg h10, ih (n / 10) _ hpos hlt,
        Nat.digits_def' (by norm_num : 1 < 10) h1]
      simp

theorem natToChars_eq_digits {n : Nat} (h : 0 < n) :
    natToChars n = ((Nat.digits 10 n).map digitChar10).reverse := by
  rw [natToChars, natToCharsAux_eq (n + 1) n [] h (by omega)]
  simp

theorem natToChars_all_digits (n : Nat) : ∀ c ∈ natToChars n, isDigitChar c = true := by
  rcases Nat.eq_zero_or_pos n with h | h
  · subst h
    intro c hc
    have : c = '0' := by simpa [natToChars, natToCharsAux] using hc
    rw [this]; decide
  · rw [natToChars_eq_digits h]
    intro c hc
    rw [List.mem_reverse, List.mem_map] at hc
    obtain ⟨d, hd, rfl⟩ := hc
    exact isDigitChar_digitChar10 (Nat.digits_lt_base (by norm_num) hd)

theorem natToChars_ne_nil (n : Nat) : natToChars n ≠ [] := by
  rcases Nat.eq_zero_or_pos n with h | h
  · subst h; simp [natToChars, natToCharsAux]
  · rw [natToChars_eq_digits h]
    have hne : Nat.digits 10 n ≠ [] := Nat.digits_ne_nil_iff_ne_zero.mpr (by omega)
    simp [hne]

theorem natToChars_head (n : Nat) :
    ∃ c t, natToChars n = c :: t ∧ isDigitChar c = true := by
  cases hl : natToChars n with
  | nil => exact absurd hl (natToChars_ne_nil n)
  | cons c t => exact ⟨c, t, rfl, natToChars_all_digits n c (by rw [hl]; simp)⟩

theorem foldl_digits_rev (L : List Nat) (h : ∀ d ∈ L, d < 10) : ∀ a : Nat,
    ((L.map digitChar10).reverse).foldl (fun x c => x * 10 + (c.toNat - 48)) a
      = a * 10 ^ L.length + Nat.ofDigits 10 L := by
  induction L with
  | nil => intro a; simp
  | cons d tl ih =>
    intro a
    have hd : d < 10 := h d (by simp)
    have htl : ∀ x ∈ tl, x < 10 := fun x hx => h x (by simp [hx])
    rw [List.map_cons, List.reverse_cons, List.foldl_append, ih htl a]
    simp only [List.foldl_cons, List.foldl_nil, toNat_digitChar10 hd,
      Nat.add_sub_cancel_left, List.length_cons, Nat.ofDigits_cons, pow_succ]
    ring

theorem digitsToNat_natToChars (n : Nat) : digitsToNat (natToChars n) = n := by
  rcases Nat.eq_zero_or_pos n with h | h
  · subst h; rfl
  · rw [natToChars_eq_digits h, digitsToNat,
      foldl_digits_rev _ (fun d hd => Nat.digits_lt_base (by norm_num) hd) 0]
    simp [Nat.ofDigits_digits]

theorem takeWhile_append_eq {p : Char → Bool} : ∀ (l₁ l₂ : List Char),
    (∀ c ∈ l₁, p c = true) → (∀ c t, l₂ = c :: t → p c = false) →
    (l₁ ++ l₂).takeWhile p = l₁ ∧ (l₁ ++ l₂).dropWhile p = l₂ := by
  intro l₁
  induction l₁ with
  | nil =>
    intro l₂ _ h₂
    cases l₂ with
    | nil => simp
    | cons c t => simp [List.takeWhile_cons, List.dropWhile_cons, h₂ c t rfl]
  | cons a l ih =>
    intro l₂ h₁ h₂
    have ha := h₁ a (by simp)
    have hl := ih l₂ (fun c hc => h₁ c (by simp [hc])) h₂
    simp [List.takeWhile_cons, List.dropWhile_cons, ha, hl.1, hl.2]

theorem parseNatNum_natToChars (m : Nat) (rest : List Char) (h : numSafe rest) :
    parseNatNum (natToChars m ++ rest) = some (m, rest) := by
  have h₂ : ∀ c t, rest = c :: t → isDigitChar c = false := by
    intro c t hct
    rw [hct] at h
    exact h
  have hsplit := takeWhile_append_eq (natToChars m) rest (natToChars_all_digits m) h₂
  rw [parseNatNum]
  simp only [hsplit.1, hsplit.2]
  have hne : (natToChars m).isEmpty = false := by
    cases hn : natToChars m with
    | nil => exact absurd hn (natToChars_ne_nil m)
    | cons c t => rfl
  simp [hne, digitsToNat_natToChars]

theorem hexVal_hexDigitChar {k : Nat} (h : k < 16) : hexVal (hexDigitChar k) = some k := by
  interval_cases k <;> decide

theorem parseStringBody_esc : ∀ (s rest : List Char),
    parseStringBody (escString s ++ '"' :: rest) = some (s, rest) := by
  intro s
  induction s with
  | nil =>
    intro rest
    show parseStringBody (escString [] ++ '"' :: rest) = some ([], rest)
    rw [show escString [] = [] from rfl, List.nil_append, parseStringBody.eq_def]
    simp
  | cons c t ih =>
    intro rest
    have hesc : escString (c :: t) = escChar c ++ escString t := by simp [escString]
    rw [hesc, List.append_assoc]
    by_cases h1 : c = '"'
    · subst h1
      rw [show escChar '"' = ['\\', '"'] from rfl]
      simp only [List.cons_append, List.nil_append]
      rw [parseStringBody.eq_def]
      simp [unescChar, ih rest]
    · by_cases h2 : c = '\\'
      · subst h2
        rw [show escChar '\\' = ['\\', '\\'] from rfl]
        simp only [List.cons_append, List.nil_append]
        rw [parseStringBody.eq_def]
        simp [unescChar, ih rest]
      · by_cases h3 : c = '\n'
        · subst h3
          rw [show escChar '\n' = ['\\', 'n'] from rfl]
          simp only [List.cons_append, List.nil_append]
          rw [parseStringBody.eq_def]
          simp [unescChar, ih rest]
        · by_cases h4 : c = '\t'
          · subst h4
            rw [show escChar '\t' = ['\\', 't'] from rfl]
            simp only [List.cons_append, List.nil_append]
            rw [parseStringBody.eq_def]
            simp [unescChar, ih rest]
          · by_cases h5 : c = '\r'
            · subst h5
              rw [show escChar '\r' = ['\\', 'r'] from rfl]
              simp only [List.cons_append, List.nil_append]
              rw [parseStringBody.eq_def]
              simp [unescChar, ih rest]
            · by_cases h6 : c = Char.ofNat 8
              · subst h6
                rw [show escChar (Char.ofNat 8) = ['\\', 'b'] from rfl]
                simp only [List.cons_append, List.nil_append]
                rw [parseStringBody.eq_def]
                simp [unescChar, ih rest]
              · by_cases h7 : c = Char.ofNat 12
                · subst h7
                  rw [show escChar (Char.ofNat 12) = ['\\', 'f'] from rfl]
                  simp only [List.cons_append, List.nil_append]
                  rw [parseStringBody.eq_def]
                  simp [unescChar, ih rest]
                · by_cases h8 : c.toNat < 32
                  · have hesc8 : escChar c
                        = ['\\', 'u', '0', '0', hexDigitChar (c.toNat / 16),
                           hexDigitChar (c.toNat % 16)] := by
                      simp [escChar, h1, h2, h3, h4, h5, h6, h7, h8]
                    have hdiv : c.toNat / 16 < 16 := by omega
                    have hmod : c.toNat % 16 < 16 := Nat.mod_lt _ (by norm_num)
                    have h0 : hexVal '0' = some 0 := by decide
                    rw [hesc8]
                    simp only [List.cons_append, List.nil_append]
                    rw [parseStringBody.eq_def]
                    simp only [reduceIte, h0, hexVal_hexDigitChar hdiv,
                      hexVal_hexDigitChar hmod, ih rest]
                    norm_num
                    rw [show c.toNat / 16 * 16 + c.toNat % 16 = c.toNat by omega,
                      Char.ofNat_toNat]
                    simp
                  · have hplain : escChar c = [c] := by
                      simp [escChar, h1, h2, h3, h4, h5, h6, h7, h8]
                    rw [hplain, List.singleton_append, parseStringBody.eq_def]
                    simp [h1, h2, ih rest]

theorem isDigitChar_ne_specials {c : Char} (h : isDigitChar c = true) :
    isWsChar c = false ∧ c ≠ 'n' ∧ c ≠ 't' ∧ c ≠ 'f' ∧ c ≠ '"' ∧ c ≠ '['
      ∧ c ≠ '\x7b' ∧ c ≠ '-' ∧ c ≠ ']' := by
  rw [isDigitChar] at h
  rw [Bool.and_eq_true, decide_eq_true_eq, decide_eq_true_eq] at h
  obtain ⟨hlo, hhi⟩ := h
  refine ⟨?_, ?_, ?_, ?_, ?_, ?_, ?_, ?_, ?_⟩
  · rw [isWsChar]
    have hsp : (c == ' ') = false := by
      rw [beq_eq_false_iff_ne]
      rintro rfl; exact absurd hlo (by decide)
    have hnl : (c == '\n') = false := by
      rw [beq_eq_false_iff_ne]
      rintro rfl; exact absurd hlo (by decide)
    have htb : (c == '\t') = false := by
      rw [beq_eq_false_iff_ne]
      rintro rfl; exact absurd hlo (by decide)
    have hcr : (c == '\r') = false := by
      rw [beq_eq_false_iff_ne]
      rintro rfl; exact absurd hlo (by decide)
    simp [hsp, hnl, htb, hcr]
  · rintro rfl; exact absurd hhi (by decide)
  · rintro rfl; exact absurd hhi (by decide)
  · rintro rfl; exact absurd hhi (by decide)
  · rintro rfl; exact absurd hlo (by decide)
  · rintro rfl; exact absurd hhi (by decide)
  · rintro rfl; exact absurd hhi (by decide)
  · rintro rfl; exact absurd hlo (by decide)
  · rintro rfl; exact absurd hhi (by decide)

theorem dumpVal_head (ind : Nat) (v : Jval) :
    ∃ c t, dumpVal ind v = c :: t ∧ isWsChar c = false ∧ c ≠ ']' := by
  cases v with
  | null => exact ⟨'n', ['u', 'l', 'l'], by simp [dumpVal], by decide, by decide⟩
  | bool b =>
    cases b
    · exact ⟨'f', ['a', 'l', 's', 'e'], by simp [dumpVal], by decide, by decide⟩
    · exact ⟨'t', ['r', 'u', 'e'], by simp [dumpVal], by decide, by decide⟩
  | int n =>
    by_cases hn : n < 0
    · exact ⟨'-', natToChars n.natAbs, by simp [dumpVal, intToChars, hn], by decide, by decide⟩
    · obtain ⟨c, t, hct, hd⟩ := natToChars_head n.natAbs
      obtain ⟨hws, _, _, _, _, _, _, _, hrb⟩ := isDigitChar_ne_specials hd
      exact ⟨c, t, by simp [dumpVal, intToChars, hn, hct], hws, hrb⟩
  | str s =>
    exact ⟨'"', escString s.data ++ ['"'], by simp [dumpVal], by decide, by decide⟩
  | arr xs =>
    cases xs with
    | nil => exact ⟨'[', [']'], by simp [dumpVal], by decide, by decide⟩
    | cons y ys =>
      exact ⟨'[', '\n' :: (indentChars (ind + 4) ++ dumpVal (ind + 4) y
        ++ dumpElemsTail (ind + 4) ys ++ '\n' :: (indentChars ind ++ [']'])),
        by simp [dumpVal], by decide, by decide⟩
  | obj kvs =>
    cases kvs with
    | nil => exact ⟨'\x7b', ['\x7d'], by simp [dumpVal], by decide, by decide⟩
    | cons kv tl =>
      exact ⟨'\x7b', '\n' :: (indentChars (ind + 4) ++ dumpMember (ind + 4) kv
        ++ dumpMembsTail (ind + 4) tl ++ '\n' :: (indentChars ind ++ ['\x7d'])),
        by simp [dumpVal], by decide, by decide⟩

theorem skipWs_dumpVal (ind : Nat) (v : Jval) (X : List Char) :
    skipWs (dumpVal ind v ++ X) = dumpVal ind v ++ X := by
  obtain ⟨c, t, hct, hws, _⟩ := dumpVal_head ind v
  rw [hct, List.cons_append]
  exact skipWs_cons_not_ws hws _

theorem numSafe_elemsTail (ind : Nat) (tl : List Jval) (cl : List Char) :
    numSafe (dumpElemsTail ind tl ++ '\n' :: cl) := by
  cases tl with
  | nil =>
    show numSafe ([] ++ '\n' :: cl)
    rw [List.nil_append]
    exact (by decide : isDigitChar '\n' = false)
  | cons y ys =>
    show numSafe (dumpElemsTail ind (y :: ys) ++ '\n' :: cl)
    rw [dumpElemsTail, List.cons_append, List.cons_append]
    exact (by decide : isDigitChar ',' = false)

theorem numSafe_membsTail (ind : Nat) (tl : List (String × Jval)) (cl : List Char) :
    numSafe (dumpMembsTail ind tl ++ '\n' :: cl) := by
  cases tl with
  | nil =>
    show numSafe ([] ++ '\n' :: cl)
    rw [List.nil_append]
    exact (by decide : isDigitChar '\n' = false)
  | cons kv ys =>
    show numSafe (dumpMembsTail ind (kv :: ys) ++ '\n' :: cl)
    rw [dumpMembsTail, List.cons_append, List.cons_append]
    exact (by decide : isDigitChar ',' = false)

theorem Jval.size_pos (v : Jval) : 1 ≤ v.size := by
  cases v <;> simp [Jval.size]

theorem sizeElems_pos (xs : List Jval) : 1 ≤ sizeElems xs := by
  cases xs <;> simp [sizeElems] <;> omega

theorem sizeMembs_pos (kvs : List (String × Jval)) : 1 ≤ sizeMembs kvs := by
  cases kvs <;> simp [sizeMembs] <;> omega

theorem parse_dump_core : ∀ fuel : Nat,
    (∀ (v : Jval) (ind : Nat) (w rest : List Char), wsOnly w → Jval.size v ≤ fuel →
        numSafe rest →
        parseCore fuel .val (w ++ (dumpVal ind v ++ rest)) = some (.pv v, rest))
    ∧ (∀ (k : String) (v : Jval) (ind : Nat) (rest : List Char), v.size + 1 ≤ fuel →
        numSafe rest →
        parseCore fuel .member
            (escString k.data ++ '"' :: ':' :: ' ' :: (dumpVal ind v ++ rest))
          = some (.pkv (k, v), rest))
    ∧ (∀ (xs : List Jval) (ind ind₂ : Nat) (rest : List Char), sizeElems xs ≤ fuel →
        parseCore fuel .arrTail
            (dumpElemsTail ind xs ++ '\n' :: (indentChars ind₂ ++ (']' :: rest)))
          = some (.pelems xs, rest))
    ∧ (∀ (kvs : List (String × Jval)) (ind ind₂ : Nat) (rest : List Char),
        sizeMembs kvs ≤ fuel →
        parseCore fuel .objTail
            (dumpMembsTail ind kvs ++ '\n' :: (indentChars ind₂ ++ ('\x7d' :: rest)))
          = some (.pmembs kvs, rest)) := by
  intro fuel
  induction fuel with
  | zero =>
    refine ⟨?_, ?_, ?_, ?_⟩
    · intro v _ _ _ _ hsz _
      have := Jval.size_pos v
      omega
    · intro _ v _ _ hsz _
      omega
    · intro xs _ _ _ hsz
      have := sizeElems_pos xs
      omega
    · intro kvs _ _ _ hsz
      have := sizeMembs_pos kvs
      omega
  | succ fuel ih =>
    obtain ⟨ihP, ihM, ihQ, ihR⟩ := ih
    refine ⟨?_, ?_, ?_, ?_⟩
    · -- values
      intro v ind w rest hw hsz hns
      simp only [parseCore]
      rw [skipWs_append_wsOnly hw]
      cases v with
      | null =>
        rw [show dumpVal ind Jval.null = ['n', 'u', 'l', 'l'] from by simp [dumpVal]]
        simp only [List.cons_append, List.nil_append]
        rw [skipWs_cons_not_ws (by decide)]
        simp
      | bool b =>
        cases b with
        | false =>
          rw [show dumpVal ind (Jval.bool false) = ['f', 'a', 'l', 's', 'e'] from by
                simp [dumpVal]]
          simp only [List.cons_append, List.nil_append]
          rw [skipWs_cons_not_ws (by decide)]
          simp
        | true =>
          rw [show dumpVal ind (Jval.bool true) = ['t', 'r', 'u', 'e'] from by
                simp [dumpVal]]
          simp only [List.cons_append, List.nil_append]
          rw [skipWs_cons_not_ws (by decide)]
          simp
      | int n =>
        by_cases hn : n < 0
        · rw [show dumpVal ind (Jval.int n) = '-' :: natToChars n.natAbs from by
                simp [dumpVal, intToChars, hn]]
          simp only [List.cons_append]
          rw [skipWs_cons_not_ws (by decide)]
          have hnum := parseNatNum_natToChars n.natAbs rest hns
          simp [hnum]
          rw [abs_of_neg hn, neg_neg]
        · obtain ⟨c, t, hct, hd⟩ := natToChars_head n.natAbs
          obtain ⟨hws, hne_n, hne_t, hne_f, hne_q, hne_lb, hne_ob, hne_m, _⟩ :=
            isDigitChar_ne_specials hd
          rw [show dumpVal ind (Jval.int n) = natToChars n.natAbs from by
                simp [dumpVal, intToChars, hn]]
          rw [hct, List.cons_append]
          rw [skipWs_cons_not_ws hws]
          simp only [if_neg hne_n, if_neg hne_t, if_neg hne_f, if_neg hne_q,
            if_neg hne_lb, if_neg hne_ob, if_neg hne_m]
          rw [← List.cons_append, ← hct]
          have hnum := parseNatNum_natToChars n.natAbs rest hns
          have hval : ((n.natAbs : Nat) : Int) = n := by omega
          simp [hnum, hval]
      | str s =>
        rw [show dumpVal ind (Jval.str s) = '"' :: (escString s.data ++ ['"']) from by
              simp [dumpVal]]
        simp only [List.cons_append, List.append_assoc, List.singleton_append]
        rw [skipWs_cons_not_ws (by decide)]
        have hs := parseStringBody_esc s.data rest
        have hmk : String.mk s.data = s := rfl
        simp [hs, hmk]
      | arr xs =>
        cases xs with
        | nil =>
          rw [show dumpVal ind (Jval.arr []) = ['[', ']'] from by simp [dumpVal]]
          simp only [List.cons_append, List.nil_append]
          rw [skipWs_cons_not_ws (by decide)]
          simp [skipWs, isWsChar]
        | cons x tl =>
          rw [show dumpVal ind (Jval.arr (x :: tl))
                = '[' :: '\n' :: (indentChars (ind + 4) ++ dumpVal (ind + 4) x
                    ++ dumpElemsTail (ind + 4) tl ++ '\n' :: (indentChars ind ++ [']']))
              from by simp [dumpVal]]
          simp only [List.cons_append, List.append_assoc, List.singleton_append,
            List.nil_append]
          rw [skipWs_cons_not_ws (by decide)]
          have h1 : Jval.size (Jval.arr (x :: tl))
              = 1 + (1 + Jval.size x + sizeElems tl) := by simp [Jval.size, sizeElems]
          rw [h1] at hsz
          have h2 := Jval.size_pos x
          have h3 := sizeElems_pos tl
          obtain ⟨c2, t2, hct2, hws2, hrb2⟩ := dumpVal_head (ind + 4) x
          have hsk : skipWs ('\n' :: (indentChars (ind + 4) ++ (dumpVal (ind + 4) x
              ++ (dumpElemsTail (ind + 4) tl ++ '\n' :: (indentChars ind ++ (']' :: rest))))))
              = c2 :: (t2
                  ++ (dumpElemsTail (ind + 4) tl
                      ++ '\n' :: (indentChars ind ++ (']' :: rest)))) := by
            rw [show ('\n' :: (indentChars (ind + 4) ++ (dumpVal (ind + 4) x
                  ++ (dumpElemsTail (ind + 4) tl
                      ++ '\n' :: (indentChars ind ++ (']' :: rest))))) : List Char)
                = ('\n' :: indentChars (ind + 4)) ++ (dumpVal (ind + 4) x
                  ++ (dumpElemsTail (ind + 4) tl
                      ++ '\n' :: (indentChars ind ++ (']' :: rest)))) from by simp]
            rw [skipWs_append_wsOnly (wsOnly_newline_indent _), hct2, List.cons_append]
            exact skipWs_cons_not_ws hws2 _
          have hx := ihP x (ind + 4) []
            (dumpElemsTail (ind + 4) tl ++ '\n' :: (indentChars ind ++ (']' :: rest)))
            (by intro a ha; simp at ha) (by omega) (numSafe_elemsTail _ _ _)
          rw [List.nil_append] at hx
          have hq := ihQ tl (ind + 4) ind rest (by omega)
          rw [hct2, List.cons_append] at hx
          simp [hsk, hrb2, hx, hq]
      | obj kvs =>
        cases kvs with
        | nil =>
          rw [show dumpVal ind (Jval.obj []) = ['\x7b', '\x7d'] from by simp [dumpVal]]
          simp only [List.cons_append, List.nil_append]
          rw [skipWs_cons_not_ws (by decide)]
          simp [skipWs, isWsChar]
        | cons kv tl =>
          obtain ⟨k, v⟩ := kv
          rw [show dumpVal ind (Jval.obj ((k, v) :: tl))
                = '\x7b' :: '\n' :: (indentChars (ind + 4) ++ dumpMember (ind + 4) (k, v)
                    ++ dumpMembsTail (ind + 4) tl ++ '\n' :: (indentChars ind ++ ['\x7d']))
              from by simp [dumpVal]]
          rw [show dumpMember (ind + 4) (k, v)
                = '"' :: (escString k.data ++ '"' :: ':' :: ' ' :: dumpVal (ind + 4) v)
              from by simp [dumpMember]]
          simp only [List.cons_append, List.append_assoc, List.singleton_append,
            List.nil_append]
          rw [skipWs_cons_not_ws (by decide)]
          have h1 : Jval.size (Jval.obj ((k, v) :: tl))
              = 1 + (1 + Jval.size v + sizeMembs tl) := by simp [Jval.size, sizeMembs]
          rw [h1] at hsz
          have h2 := Jval.size_pos v
          have h3 := sizeMembs_pos tl
          have hsk : skipWs ('\n' :: (indentChars (ind + 4) ++ ('"' :: (escString k.data
              ++ '"' :: ':' :: ' ' :: (dumpVal (ind + 4) v
                  ++ (dumpMembsTail (ind + 4) tl
                      ++ '\n' :: (indentChars ind ++ ('\x7d' :: rest))))))))
              = '"' :: (escString k.data
                  ++ '"' :: ':' :: ' ' :: (dumpVal (ind + 4) v
                      ++ (dumpMembsTail (ind + 4) tl
                          ++ '\n' :: (indentChars ind ++ ('\x7d' :: rest))))) := by
            rw [show ('\n' :: (indentChars (ind + 4) ++ ('"' :: (escString k.data
                  ++ '"' :: ':' :: ' ' :: (dumpVal (ind + 4) v
                      ++ (dumpMembsTail (ind + 4) tl
                          ++ '\n' :: (indentChars ind ++ ('\x7d' :: rest))))))) : List Char)
                = ('\n' :: indentChars (ind + 4)) ++ ('"' :: (escString k.data
                  ++ '"' :: ':' :: ' ' :: (dumpVal (ind + 4) v
                      ++ (dumpMembsTail (ind + 4) tl
                          ++ '\n' :: (indentChars ind ++ ('\x7d' :: rest)))))) from by simp]
            rw [skipWs_append_wsOnly (wsOnly_newline_indent _)]
            exact skipWs_cons_not_ws (by decide) _
          have hm := ihM k v (ind + 4)
            (dumpMembsTail (ind + 4) tl ++ '\n' :: (indentChars ind ++ ('\x7d' :: rest)))
            (by omega) (numSafe_membsTail _ _ _)
          have hr := ihR tl (ind + 4) ind rest (by omega)
          simp [hsk, hm, hr]
    · -- members
      intro k v ind rest hsz hns
      simp only [parseCore]
      rw [parseStringBody_esc k.data (':' :: ' ' :: (dumpVal ind v ++ rest))]
      have hv := ihP v ind [' '] rest
        (by intro a ha; simp at ha; rw [ha]; decide) (by omega) hns
      rw [List.singleton_append] at hv
      have hk : String.mk k.data = k := rfl
      simp [skipWs_cons_not_ws (show isWsChar ':' = false by decide), hv, hk]
    · -- array tails
      intro xs ind ind₂ rest hsz
      simp only [parseCore]
      cases xs with
      | nil =>
        rw [show dumpElemsTail ind ([] : List Jval) = [] from by simp [dumpElemsTail]]
        rw [List.nil_append]
        have hsknil : skipWs ('\n' :: (indentChars ind₂ ++ (']' :: rest)))
            = ']' :: rest := by
          rw [show ('\n' :: (indentChars ind₂ ++ (']' :: rest)) : List Char)
                = ('\n' :: indentChars ind₂) ++ (']' :: rest) from by simp,
             skipWs_append_wsOnly (wsOnly_newline_indent _),
             skipWs_cons_not_ws (by decide)]
        simp [hsknil]
      | cons y ys =>
        rw [show dumpElemsTail ind (y :: ys)
              = ',' :: '\n' :: (indentChars ind ++ dumpVal ind y ++ dumpElemsTail ind ys)
            from by simp [dumpElemsTail]]
        simp only [List.cons_append, List.append_assoc]
        rw [skipWs_cons_not_ws (by decide)]
        have h1 : sizeElems (y :: ys) = 1 + Jval.size y + sizeElems ys := by
          simp [sizeElems]
        rw [h1] at hsz
        have h2 := Jval.size_pos y
        have h3 := sizeElems_pos ys
        have hy := ihP y ind ('\n' :: indentChars ind)
          (dumpElemsTail ind ys ++ '\n' :: (indentChars ind₂ ++ (']' :: rest)))
          (wsOnly_newline_indent ind) (by omega) (numSafe_elemsTail _ _ _)
        rw [List.cons_append] at hy
        have hys := ihQ ys ind ind₂ rest (by omega)
        simp [hy, hys]
    · -- object member tails
      intro kvs ind ind₂ rest hsz
      simp only [parseCore]
      cases kvs with
      | nil =>
        rw [show dumpMembsTail ind ([] : List (String × Jval)) = [] from by
              simp [dumpMembsTail]]
        rw [List.nil_append]
        have hsknil : skipWs ('\n' :: (indentChars ind₂ ++ ('\x7d' :: rest)))
            = '\x7d' :: rest := by
          rw [show ('\n' :: (indentChars ind₂ ++ ('\x7d' :: rest)) : List Char)
                = ('\n' :: indentChars ind₂) ++ ('\x7d' :: rest) from by simp,
             skipWs_append_wsOnly (wsOnly_newline_indent _),
             skipWs_cons_not_ws (by decide)]
        simp [hsknil]
      | cons kv tl =>
        obtain ⟨k, v⟩ := kv
        rw [show dumpMembsTail ind ((k, v) :: tl)
              = ',' :: '\n' :: (indentChars ind ++ dumpMember ind (k, v)
                  ++ dumpMembsTail ind tl)
            from by simp [dumpMembsTail]]
        rw [show dumpMember ind (k, v)
              = '"' :: (escString k.data ++ '"' :: ':' :: ' ' :: dumpVal ind v)
            from by simp [dumpMember]]
        simp only [List.cons_append, List.append_assoc]
        rw [skipWs_cons_not_ws (by decide)]
        have h1 : sizeMembs ((k, v) :: tl) = 1 + Jval.size v + sizeMembs tl := by
          simp [sizeMembs]
        rw [h1] at hsz
        have h2 := Jval.size_pos v
        have h3 := sizeMembs_pos tl
        have hsk : skipWs ('\n' :: (indentChars ind ++ ('"' :: (escString k.data
            ++ '"' :: ':' :: ' ' :: (dumpVal ind v
                ++ (dumpMembsTail ind tl
                    ++ '\n' :: (indentChars ind₂ ++ ('\x7d' :: rest))))))))
            = '"' :: (escString k.data
                ++ '"' :: ':' :: ' ' :: (dumpVal ind v
                    ++ (dumpMembsTail ind tl
                        ++ '\n' :: (indentChars ind₂ ++ ('\x7d' :: rest))))) := by
          rw [show ('\n' :: (indentChars ind ++ ('"' :: (escString k.data
                ++ '"' :: ':' :: ' ' :: (dumpVal ind v
                    ++ (dumpMembsTail ind tl
                        ++ '\n' :: (indentChars ind₂ ++ ('\x7d' :: rest))))))) : List Char)
              = ('\n' :: indentChars ind) ++ ('"' :: (escString k.data
                ++ '"' :: ':' :: ' ' :: (dumpVal ind v
                    ++ (dumpMembsTail ind tl
                        ++ '\n' :: (indentChars ind₂ ++ ('\x7d' :: rest)))))) from by simp]
          rw [skipWs_append_wsOnly (wsOnly_newline_indent _)]
          exact skipWs_cons_not_ws (by decide) _
        have hm := ihM k v ind
          (dumpMembsTail ind tl ++ '\n' :: (indentChars ind₂ ++ ('\x7d' :: rest)))
          (by omega) (numSafe_membsTail _ _ _)
        have hr := ihR tl ind ind₂ rest (by omega)
        simp [hsk, hm, hr]

theorem dump_size_bound : ∀ n : Nat,
    (∀ v : Jval, sizeOf v ≤ n → ∀ ind, Jval.size v ≤ (dumpVal ind v).length)
    ∧ (∀ xs : List Jval, sizeOf xs ≤ n → ∀ ind,
        sizeElems xs ≤ (dumpElemsTail ind xs).length + 1)
    ∧ (∀ kvs : List (String × Jval), sizeOf kvs ≤ n → ∀ ind,
        sizeMembs kvs ≤ (dumpMembsTail ind kvs).length + 1) := by
  intro n
  induction n with
  | zero =>
    refine ⟨?_, ?_, ?_⟩
    · intro v h
      exfalso
      cases v <;> simp at h
      all_goals omega
    · intro xs h
      exfalso
      cases xs <;> simp at h
      all_goals omega
    · intro kvs h
      exfalso
      cases kvs <;> simp at h
      all_goals omega
  | succ n ihn =>
    obtain ⟨ih1, ih2, ih3⟩ := ihn
    refine ⟨?_, ?_, ?_⟩
    · intro v hv ind
      cases v with
      | null => simp [dumpVal, Jval.size]
      | bool b => cases b <;> simp [dumpVal, Jval.size]
      | int m =>
        have hlen : 1 ≤ (intToChars m).length := by
          rw [intToChars]
          split
          · simp
          · cases hc : natToChars m.natAbs with
            | nil => exact absurd hc (natToChars_ne_nil m.natAbs)
            | cons c t => simp [hc]
        simp only [dumpVal, Jval.size]
        omega
      | str s => simp [dumpVal, Jval.size]
      | arr xs =>
        cases xs with
        | nil => simp [dumpVal, Jval.size, sizeElems]
        | cons x tl =>
          simp only [Jval.arr.sizeOf_spec, List.cons.sizeOf_spec] at hv
          have hx := ih1 x (by omega) (ind + 4)
          have htl := ih2 tl (by omega) (ind + 4)
          simp only [dumpVal, Jval.size, sizeElems, List.length_cons, List.length_append,
            indentChars, List.length_replicate, List.length_singleton]
          omega
      | obj kvs =>
        cases kvs with
        | nil => simp [dumpVal, Jval.size, sizeMembs]
        | cons kv tl =>
          obtain ⟨k, v⟩ := kv
          simp only [Jval.obj.sizeOf_spec, List.cons.sizeOf_spec,
            Prod.mk.sizeOf_spec] at hv
          have hx := ih1 v (by omega) (ind + 4)
          have htl := ih3 tl (by omega) (ind + 4)
          simp only [dumpVal, dumpMember, Jval.size, sizeMembs, List.length_cons,
            List.length_append, indentChars, List.length_replicate, List.length_singleton]
          omega
    · intro xs hxs ind
      cases xs with
      | nil => simp [dumpElemsTail, sizeElems]
      | cons y ys =>
        simp only [List.cons.sizeOf_spec] at hxs
        have hy := ih1 y (by omega) ind
        have hys := ih2 ys (by omega) ind
        simp only [dumpElemsTail, sizeElems, List.length_cons, List.length_append,
          indentChars, List.length_replicate]
        omega
    · intro kvs hkvs ind
      cases kvs with
      | nil => simp [dumpMembsTail, sizeMembs]
      | cons kv tl =>
        obtain ⟨k, v⟩ := kv
        simp only [List.cons.sizeOf_spec, Prod.mk.sizeOf_spec] at hkvs
        have hv := ih1 v (by omega) ind
        have htl := ih3 tl (by omega) ind
        simp only [dumpMembsTail, dumpMember, sizeMembs, List.length_cons,
          List.length_append, indentChars, List.length_replicate]
        omega

/-- **Round-trip**: `json.load` of the text `json.dump(v, f, indent=4)` wrote
recovers exactly `v`. -/
theorem loads_dumps (v : Jval) : loads (dumps v) = some v := by
  have hbound : Jval.size v ≤ (dumpVal 0 v).length :=
    (dump_size_bound (sizeOf v)).1 v (le_refl _) 0
  have hp := (parse_dump_core ((dumpVal 0 v).length + 1)).1 v 0 [] []
    (by intro a ha; simp at ha) (by omega) trivial
  rw [List.nil_append, List.append_nil] at hp
  have hdata : (String.mk (dumpVal 0 v)).data = dumpVal 0 v := rfl
  simp [loads, dumps, parseVal, hdata, hp, skipWs]

/-! ## Python dict update lemmas -/

theorem find_map_set (k : String) (v : Jval) : ∀ kvs : List (String × Jval),
    ((kvs.map fun p => if p.1 == k then (k, v) else p).find? fun p => p.1 == k)
      = if (kvs.any fun p => p.1 == k) then some (k, v) else none := by
  intro kvs
  induction kvs with
  | nil => rfl
  | cons p tl ih =>
    rw [List.map_cons, List.any_cons]
    by_cases hp : p.1 = k
    · have hb : (p.1 == k) = true := beq_iff_eq.mpr hp
      rw [if_pos hb, List.find?_cons_of_pos _ (by simp), hb, Bool.true_or, if_pos rfl]
    · have hb : (p.1 == k) = false := beq_eq_false_iff_ne.mpr hp
      rw [if_neg (by simp [hb]), List.find?_cons_of_neg _ (by simp [hb]), ih, hb,
        Bool.false_or]

theorem find_map_set_ne (k k' : String) (v : Jval) (hne : k' ≠ k) :
    ∀ kvs : List (String × Jval),
    ((kvs.map fun p => if p.1 == k then (k, v) else p).find? fun p => p.1 == k')
      = kvs.find? fun p => p.1 == k' := by
  intro kvs
  induction kvs with
  | nil => rfl
  | cons p tl ih =>
    rw [List.map_cons]
    by_cases hp : p.1 = k
    · have hb : (p.1 == k) = true := beq_iff_eq.mpr hp
      have h2 : (p.1 == k') = false := by
        rw [hp]; exact beq_eq_false_iff_ne.mpr (Ne.symm hne)
      rw [if_pos hb]
      have e1 : List.find? (fun q => q.1 == k')
          ((k, v) :: List.map (fun q => if q.1 == k then (k, v) else q) tl)
          = List.find? (fun q => q.1 == k')
              (List.map (fun q => if q.1 == k then (k, v) else q) tl) :=
        List.find?_cons_of_neg _ (by simp [beq_eq_false_iff_ne.mpr (Ne.symm hne)])
      have e2 : List.find? (fun q => q.1 == k') (p :: tl)
          = List.find? (fun q => q.1 == k') tl :=
        List.find?_cons_of_neg _ (by simp [h2])
      rw [e1, ih, e2]
    · have hb : (p.1 == k) = false := beq_eq_false_iff_ne.mpr hp
      rw [if_neg (by simp [hb])]
      by_cases hq : p.1 = k'
      · have hq' : (p.1 == k') = true := beq_iff_eq.mpr hq
        have e1 : List.find? (fun q => q.1 == k')
            (p :: List.map (fun q => if q.1 == k then (k, v) else q) tl) = some p :=
          List.find?_cons_of_pos _ hq'
        have e2 : List.find? (fun q => q.1 == k') (p :: tl) = some p :=
          List.find?_cons_of_pos _ hq'
        rw [e1, e2]
      · have hq' : (p.1 == k') = false := beq_eq_false_iff_ne.mpr hq
        have e1 : List.find? (fun q => q.1 == k')
            (p :: List.map (fun q => if q.1 == k then (k, v) else q) tl)
            = List.find? (fun q => q.1 == k')
                (List.map (fun q => if q.1 == k then (k, v) else q) tl) :=
          List.find?_cons_of_neg _ (by simp [hq'])
        have e2 : List.find? (fun q => q.1 == k') (p :: tl)
            = List.find? (fun q => q.1 == k') tl :=
          List.find?_cons_of_neg _ (by simp [hq'])
        rw [e1, e2, ih]

theorem getVal_setKey_same (kvs : List (String × Jval)) (k : String) (v : Jval) :
    getVal (setKey kvs k v) k = some v := by
  rw [setKey, getVal]
  by_cases h : (kvs.any fun p => p.1 == k) = true
  · rw [if_pos h, find_map_set, if_pos h]
    rfl
  · rw [if_neg h]
    have hnone : (kvs.find? fun p => p.1 == k) = none := by
      rw [List.find?_eq_none]
      intro x hx hpx
      exact h (List.any_eq_true.mpr ⟨x, hx, hpx⟩)
    rw [List.find?_append, hnone]
    simp

theorem getVal_setKey_ne (kvs : List (String × Jval)) (k k' : String) (v : Jval)
    (hne : k' ≠ k) : getVal (setKey kvs k v) k' = getVal kvs k' := by
  rw [setKey, getVal, getVal]
  by_cases h : (kvs.any fun p => p.1 == k) = true
  · rw [if_pos h, find_map_set_ne k k' v hne]
  · rw [if_neg h, List.find?_append]
    have hone : (([(k, v)] : List (String × Jval)).find? fun p => p.1 == k') = none := by
      simp [beq_eq_false_iff_ne.mpr (Ne.symm hne)]
    rw [hone]
    simp

/-- **C4.** Round-trip through the UI config file: whenever
`configure_vae_in_ui_config` succeeds on a configuration dictionary read
from `ui-config.json`, the file it rewrote with `json.dump` reads back with
`json.load` to exactly the key/value pairs that were written — no key
added, dropped, or value coerced — and in particular the two Preferred-VAE
keys read back equal to the `vae_name` that was set. -/
theorem C4_ui_config_round_trip (fs : FS) (vae text : String)
    (kvs : List (String × Jval))
    (hread : fs.read FixGreyImages.ui_config_file = some text)
    (hload : loads text = some (.obj kvs)) :
    (FixGreyImages.configure_vae_in_ui_config fs vae).1 = true
    ∧ ((FixGreyImages.configure_vae_in_ui_config fs vae).2.read
          FixGreyImages.ui_config_file
        = some (dumps (.obj (setKey (setKey kvs FixGreyImages.txt2img_key (.str vae))
            FixGreyImages.img2img_key (.str vae)))))
    ∧ loads (dumps (.obj (setKey (setKey kvs FixGreyImages.txt2img_key (.str vae))
          FixGreyImages.img2img_key (.str vae))))
        = some (.obj (setKey (setKey kvs FixGreyImages.txt2img_key (.str vae))
            FixGreyImages.img2img_key (.str vae)))
    ∧ getVal (setKey (setKey kvs FixGreyImages.txt2img_key (.str vae))
          FixGreyImages.img2img_key (.str vae)) FixGreyImages.txt2img_key
        = some (.str vae)
    ∧ getVal (setKey (setKey kvs FixGreyImages.txt2img_key (.str vae))
          FixGreyImages.img2img_key (.str vae)) FixGreyImages.img2img_key
        = some (.str vae) := by
  have hkeys : FixGreyImages.txt2img_key ≠ FixGreyImages.img2img_key := by decide
  refine ⟨?_, ?_, loads_dumps _, ?_, getVal_setKey_same _ _ _⟩
  · simp [FixGreyImages.configure_vae_in_ui_config, hread, hload]
  · simp [FixGreyImages.configure_vae_in_ui_config, hread, hload, FS.read_write]
  · rw [getVal_setKey_ne _ _ _ _ hkeys, getVal_setKey_same]

/-- Witness for C4 at a one-entry configuration file. -/
theorem C4_witness :
    ((FS.empty.write FixGreyImages.ui_config_file
        (dumps (.obj [("other", .int 1)]))).read FixGreyImages.ui_config_file
      = some (dumps (.obj [("other", .int 1)])))
    ∧ loads (dumps (.obj [("other", .int 1)])) = some (.obj [("other", .int 1)])
    ∧ ((FixGreyImages.configure_vae_in_ui_config
          (FS.empty.write FixGreyImages.ui_config_file
            (dumps (.obj [("other", .int 1)]))) "vae-ft-mse-840000-ema-pruned.safetensors").1
        = true) :=
  ⟨FS.read_write _ _ _, loads_dumps _,
   (C4_ui_config_round_trip
     (FS.empty.write FixGreyImages.ui_config_file (dumps (.obj [("other", .int 1)])))
     "vae-ft-mse-840000-ema-pruned.safetensors"
     (dumps (.obj [("other", .int 1)])) [("other", .int 1)]
     (FS.read_write _ _ _) (loads_dumps _)).1⟩

/-- **C10.** Frame property of the UI config update: on a pre-existing
`ui-config.json` dictionary, `configure_vae_in_ui_config` changes only the
two Preferred-VAE keys (both set to the given `vae_name`): the rewritten
file parses to the updated dictionary, in which every other key maps to its
previous value; and when the file does not exist the written dictionary
holds exactly the two keys. -/
theorem C10_ui_config_frame (fs : FS) (vae text : String)
    (kvs : List (String × Jval))
    (hread : fs.read FixGreyImages.ui_config_file = some text)
    (hload : loads text = some (.obj kvs)) :
    ((FixGreyImages.configure_vae_in_ui_config fs vae).2.read
          FixGreyImages.ui_config_file
        = some (dumps (.obj (setKey (setKey kvs FixGreyImages.txt2img_key (.str vae))
            FixGreyImages.img2img_key (.str vae))))
      ∧ loads (dumps (.obj (setKey (setKey kvs FixGreyImages.txt2img_key (.str vae))
            FixGreyImages.img2img_key (.str vae))))
          = some (.obj (setKey (setKey kvs FixGreyImages.txt2img_key (.str vae))
              FixGreyImages.img2img_key (.str vae))))
    ∧ (∀ k, k ≠ FixGreyImages.txt2img_key → k ≠ FixGreyImages.img2img_key →
        getVal (setKey (setKey kvs FixGreyImages.txt2img_key (.str vae))
            FixGreyImages.img2img_key (.str vae)) k
          = getVal kvs k)
    ∧ (∀ fs' : FS, fs'.read FixGreyImages.ui_config_file = none →
        (FixGreyImages.configure_vae_in_ui_config fs' vae).2.read
            FixGreyImages.ui_config_file
          = some (dumps (.obj [(FixGreyImages.txt2img_key, .str vae),
              (FixGreyImages.img2img_key, .str vae)]))) := by
  refine ⟨⟨?_, loads_dumps _⟩, ?_, ?_⟩
  · simp [FixGreyImages.configure_vae_in_ui_config, hread, hload, FS.read_write]
  · intro k hk1 hk2
    rw [getVal_setKey_ne _ _ _ _ hk2, getVal_setKey_ne _ _ _ _ hk1]
  · intro fs' hnone
    have hpair : setKey (setKey [] FixGreyImages.txt2img_key (.str vae))
        FixGreyImages.img2img_key (.str vae)
        = [(FixGreyImages.txt2img_key, .str vae),
           (FixGreyImages.img2img_key, .str vae)] := by
      have hne : (FixGreyImages.txt2img_key == FixGreyImages.img2img_key) = false := by
        decide
      simp [setKey, hne]
    simp [FixGreyImages.configure_vae_in_ui_config, hnone, hpair, FS.read_write]

/-- Witness for C10 at a one-entry configuration file. -/
theorem C10_witness :
    ((FS.empty.write FixGreyImages.ui_config_file
        (dumps (.obj [("other", .bool true)]))).read FixGreyImages.ui_config_file
      = some (dumps (.obj [("other", .bool true)])))
    ∧ loads (dumps (.obj [("other", .bool true)])) = some (.obj [("other", .bool true)])
    ∧ (∀ k, k ≠ FixGreyImages.txt2img_key → k ≠ FixGreyImages.img2img_key →
        getVal (setKey (setKey [("other", .bool true)]
            FixGreyImages.txt2img_key (.str "v.safetensors"))
            FixGreyImages.img2img_key (.str "v.safetensors")) k
          = getVal [("other", .bool true)] k) :=
  ⟨FS.read_write _ _ _, loads_dumps _,
   (C10_ui_config_frame
     (FS.empty.write FixGreyImages.ui_config_file (dumps (.obj [("other", .bool true)])))
     "v.safetensors" (dumps (.obj [("other", .bool true)])) [("other", .bool true)]
     (FS.read_write _ _ _) (loads_dumps _)).2.1⟩

/-- **C2 (counterexample).** When no VAE file is available and the download
fails, `fix_grey_images.main` returns early (line 231) without printing the
`GREY IMAGE FIX SUMMARY` block — refuting the claim that the final summary
block is printed on every outcome — although the exit code is still 0. -/
theorem C2_counterexample_no_summary_on_failed_download :
    (FixGreyImages.main
        { fs := FS.empty, availableVaes := [], downloadResult := none,
          testOk := true }).printedSummary = false
    ∧ (FixGreyImages.main
        { fs := FS.empty, availableVaes := [], downloadResult := none,
          testOk := true }).exitCode = 0 := by
  constructor <;> rfl

/-- **C2 (amended).** Every `main()` returns normally and the process exit
code is always 0 (no script calls `sys.exit`); but the final summary block
is not printed on every outcome: `fix_grey_images.main` prints the
`GREY IMAGE FIX SUMMARY` block iff a VAE name was obtained (a VAE file was
found or the download succeeded), returning early otherwise; and
`fix_pytorch_cuda.main` prints its final next-steps block iff PyTorch is
installed and CUDA was not already working, returning early otherwise. -/
theorem C2_exit_zero_and_summary_condition
    (envG : FixGreyImages.Env) (envP : FixPytorchCuda.Env) :
    (FixGreyImages.main envG).exitCode = 0
    ∧ (FixPytorchCuda.main envP).exitCode = 0
    ∧ ((FixGreyImages.main envG).printedSummary = true
        ↔ ¬(envG.availableVaes = [] ∧ envG.downloadResult = none))
    ∧ ((FixPytorchCuda.main envP).printedNextSteps = true
        ↔ envP.pytorchInstalled = true ∧ envP.cudaAlreadyAvailable = false) := by
  refine ⟨?_, ?_, ?_, ?_⟩
  · cases hav : envG.availableVaes with
    | nil =>
      cases hd : envG.downloadResult with
      | none => simp [FixGreyImages.main, hav, hd]
      | some nm => simp [FixGreyImages.main, FixGreyImages.mainRest, hav, hd]
    | cons v0 tl => simp [FixGreyImages.main, FixGreyImages.mainRest, hav]
  · cases h1 : envP.pytorchInstalled <;> cases h2 : envP.cudaAlreadyAvailable <;>
      simp [FixPytorchCuda.main, h1, h2]
  · cases hav : envG.availableVaes with
    | nil =>
      cases hd : envG.downloadResult with
      | none => simp [FixGreyImages.main, hav, hd]
      | some nm => simp [FixGreyImages.main, FixGreyImages.mainRest, hav, hd]
    | cons v0 tl => simp [FixGreyImages.main, FixGreyImages.mainRest, hav]
  · cases h1 : envP.pytorchInstalled <;> cases h2 : envP.cudaAlreadyAvailable <;>
      simp [FixPytorchCuda.main, h1, h2]

/-- **C3.** A recovery action whose predicate says the fix is not needed
never runs its effect: in `fix_pytorch_cuda.main`, when PyTorch is
installed and `torch.cuda.is_available()` is already true, neither
`uninstall_current_pytorch` nor `install_cuda_pytorch` is invoked; and in
`fix_grey_images.main`, `configure_vae_in_ui_config` is never invoked when
`check_current_vae_config` returned `True`. -/
theorem C3_guard_false_effect_not_invoked
    (envP : FixPytorchCuda.Env) (hP1 : envP.pytorchInstalled = true)
    (hP2 : envP.cudaAlreadyAvailable = true)
    (envG : FixGreyImages.Env)
    (hG : FixGreyImages.check_current_vae_config envG.fs = true) :
    (∀ p, FixPytorchCuda.Action.uninstallPkg p ∉ (FixPytorchCuda.main envP).actions)
    ∧ (∀ c, FixPytorchCuda.Action.installConfig c ∉ (FixPytorchCuda.main envP).actions)
    ∧ (∀ vae, FixGreyImages.Effect.configureVae vae
        ∉ (FixGreyImages.main envG).effects) := by
  refine ⟨?_, ?_, ?_⟩
  · intro p
    simp [FixPytorchCuda.main, hP1, hP2]
  · intro c
    simp [FixPytorchCuda.main, hP1, hP2]
  · intro vae
    cases hav : envG.availableVaes with
    | nil =>
      cases hd : envG.downloadResult with
      | none => simp [FixGreyImages.main, hav, hd]
      | some nm => simp [FixGreyImages.main, FixGreyImages.mainRest, hav, hd, hG]
    | cons v0 tl => simp [FixGreyImages.main, FixGreyImages.mainRest, hav, hG]

/-- Witness for C3: CUDA already works, and a `ui-config.json` with both
Preferred-VAE keys set. -/
theorem C3_witness :
    (({ pytorchInstalled := true, cudaAlreadyAvailable := true,
        uninstallRaises := fun _ => false, installOk := fun _ => false,
        verifyOk := fun _ => false, testOk := true }
        : FixPytorchCuda.Env).pytorchInstalled = true)
    ∧ (FixGreyImages.check_current_vae_config
        (FS.empty.write "ui-config.json"
          "\x7b\"txt2img/Preferred VAE/value\": \"fixed.safetensors\", \"img2img/Preferred VAE/value\": \"fixed.safetensors\"\x7d")
        = true)
    ∧ (∀ vae, FixGreyImages.Effect.configureVae vae
        ∉ (FixGreyImages.main
            { fs := FS.empty.write "ui-config.json"
                "\x7b\"txt2img/Preferred VAE/value\": \"fixed.safetensors\", \"img2img/Preferred VAE/value\": \"fixed.safetensors\"\x7d",
              availableVaes := ["fixed.safetensors"], downloadResult := none,
              testOk := true }).effects) :=
  ⟨rfl, by decide,
   (C3_guard_false_effect_not_invoked
     { pytorchInstalled := true, cudaAlreadyAvailable := true,
       uninstallRaises := fun _ => false, installOk := fun _ => false,
       verifyOk := fun _ => false, testOk := true } rfl rfl
     { fs := FS.empty.write "ui-config.json"
         "\x7b\"txt2img/Preferred VAE/value\": \"fixed.safetensors\", \"img2img/Preferred VAE/value\": \"fixed.safetensors\"\x7d",
       availableVaes := ["fixed.safetensors"], downloadResult := none,
       testOk := true } (by decide)).2.2⟩

/-- **C9 (counterexample).** The claim fails for `fix_image_generation.py`:
on a `modules/processing.py` that triggers patch 2,
`patch_webui_image_processing` reports success, but the backup file
`modules/processing.py.image_gen_backup` does NOT hold the pre-patch
original — it holds exactly the post-patch content of the target, because
the source mutates `content` (lines 128/157) before writing it to the
backup (lines 163-165). -/
theorem C9_counterexample_backup_holds_patched_content :
    ((FixImageGeneration.patch_webui_image_processing
        (FS.empty.write FixImageGeneration.processing_file
          "def images_tensor_to_samples")).1 = true)
    ∧ ((FixImageGeneration.patch_webui_image_processing
        (FS.empty.write FixImageGeneration.processing_file
          "def images_tensor_to_samples")).2.read
          (FixImageGeneration.processing_file ++ ".image_gen_backup")
        ≠ some "def images_tensor_to_samples")
    ∧ ((FixImageGeneration.patch_webui_image_processing
        (FS.empty.write FixImageGeneration.processing_file
          "def images_tensor_to_samples")).2.read
          (FixImageGeneration.processing_file ++ ".image_gen_backup")
        = (FixImageGeneration.patch_webui_image_processing
            (FS.empty.write FixImageGeneration.processing_file
              "def images_tensor_to_samples")).2.read
            FixImageGeneration.processing_file) := by
  refine ⟨rfl, by decide, rfl⟩

/-- **C9 (amended).** `patch_sgm_imports` and `modify_webui_packages` always
write the target's exact original content to a sibling backup before
rewriting, and `patch_gradio_extensions` does so whenever it changes the
target — for those the backup holds the pre-patch content.  But
`fix_image_generation.py` violates the invariant at both of its patch
sites: whenever `patch_webui_image_processing` or
`patch_webui_images_module` changes its target, the sibling backup it
creates holds exactly the target's NEW (post-patch) content, not the
pre-patch original, which is lost. -/
theorem C9_backup_before_patch_amended
    (fs₁ : FS) (c₁ : String)
    (h₁ : fs₁.read FixSgmOpenclip.sgm_encoder_file = some c₁)
    (fs₂ : FS) (c₂ : String)
    (h₂ : fs₂.read FixGradioCompatibility.extensions_file = some c₂)
    (fs₃ : FS) (c₃ : String)
    (h₃ : fs₃.read FixBuildTools.launch_utils_path = some c₃)
    (fs₄ : FS) (c₄ : String)
    (h₄ : fs₄.read FixImageGeneration.processing_file = some c₄)
    (fs₅ : FS) (c₅ : String)
    (h₅ : fs₅.read FixImageGeneration.images_file = some c₅) :
    ((FixSgmOpenclip.patch_sgm_imports fs₁).1 = true
      ∧ (FixSgmOpenclip.patch_sgm_imports fs₁).2.read
          (FixSgmOpenclip.sgm_encoder_file ++ ".backup") = some c₁)
    ∧ ((FixGradioCompatibility.patch_gradio_extensions fs₂).2.read
          FixGradioCompatibility.extensions_file ≠ some c₂
        → (FixGradioCompatibility.patch_gradio_extensions fs₂).2.read
            (FixGradioCompatibility.extensions_file ++ ".gradio_backup") = some c₂)
    ∧ ((FixBuildTools.modify_webui_packages fs₃).1 = true
      ∧ (FixBuildTools.modify_webui_packages fs₃).2.read
          (FixBuildTools.launch_utils_path ++ ".backup") = some c₃)
    ∧ ((FixImageGeneration.patch_webui_image_processing fs₄).2.read
          FixImageGeneration.processing_file ≠ some c₄
        → (FixImageGeneration.patch_webui_image_processing fs₄).2.read
            (FixImageGeneration.processing_file ++ ".image_gen_backup")
          = (FixImageGeneration.patch_webui_image_processing fs₄).2.read
              FixImageGeneration.processing_file
          ∧ (FixImageGeneration.patch_webui_image_processing fs₄).2.read
              (FixImageGeneration.processing_file ++ ".image_gen_backup")
            ≠ some c₄)
    ∧ ((FixImageGeneration.patch_webui_images_module fs₅).2.read
          FixImageGeneration.images_file ≠ some c₅
        → (FixImageGeneration.patch_webui_images_module fs₅).2.read
            (FixImageGeneration.images_file ++ ".cpu_fix_backup")
          = (FixImageGeneration.patch_webui_images_module fs₅).2.read
              FixImageGeneration.images_file
          ∧ (FixImageGeneration.patch_webui_images_module fs₅).2.read
              (FixImageGeneration.images_file ++ ".cpu_fix_backup")
            ≠ some c₅) := by
  have hne₁ : FixSgmOpenclip.sgm_encoder_file ++ ".backup"
      ≠ FixSgmOpenclip.sgm_encoder_file := by decide
  have hne₂ : FixGradioCompatibility.extensions_file ++ ".gradio_backup"
      ≠ FixGradioCompatibility.extensions_file := by decide
  have hne₃ : FixBuildTools.launch_utils_path ++ ".backup"
      ≠ FixBuildTools.launch_utils_path := by decide
  refine ⟨⟨?_, ?_⟩, ?_, ⟨?_, ?_⟩, ?_, ?_⟩
  · simp [FixSgmOpenclip.patch_sgm_imports, h₁]
  · have hres : (FixSgmOpenclip.patch_sgm_imports fs₁).2
        = (fs₁.write (FixSgmOpenclip.sgm_encoder_file ++ ".backup") c₁).write
            FixSgmOpenclip.sgm_encoder_file
            (if containsStr c₁ FixSgmOpenclip.old_import
             then strReplace c₁ FixSgmOpenclip.old_import FixSgmOpenclip.new_import
             else c₁) := by
      simp [FixSgmOpenclip.patch_sgm_imports, h₁]
    rw [hres, FS.read_write_ne _ _ _ _ hne₁, FS.read_write]
  · intro hchanged
    by_cases hm1 : containsStr c₂ FixGradioCompatibility.patched_marker = true
    · exact absurd (by simp [FixGradioCompatibility.patch_gradio_extensions, h₂, hm1])
        hchanged
    · have hm1' : containsStr c₂ FixGradioCompatibility.patched_marker = false :=
        Bool.not_eq_true _ |>.mp hm1
      by_cases hm2 : containsStr c₂ FixGradioCompatibility.io_component_marker = true
      · have hres : (FixGradioCompatibility.patch_gradio_extensions fs₂).2
            = (fs₂.write (FixGradioCompatibility.extensions_file ++ ".gradio_backup")
                c₂).write FixGradioCompatibility.extensions_file
                (strReplace c₂ FixGradioCompatibility.old_line
                  FixGradioCompatibility.new_lines) := by
          simp [FixGradioCompatibility.patch_gradio_extensions, h₂, hm1', hm2]
        rw [hres, FS.read_write_ne _ _ _ _ hne₂, FS.read_write]
      · have hm2' : containsStr c₂ FixGradioCompatibility.io_component_marker = false :=
          Bool.not_eq_true _ |>.mp hm2
        exact absurd
          (by simp [FixGradioCompatibility.patch_gradio_extensions, h₂, hm1', hm2'])
          hchanged
  · simp [FixBuildTools.modify_webui_packages, h₃]
  · have hres : (FixBuildTools.modify_webui_packages fs₃).2
        = (fs₃.write (FixBuildTools.launch_utils_path ++ ".backup") c₃).write
            FixBuildTools.launch_utils_path
            (if containsStr c₃ FixBuildTools.old_openclip
             then strReplace c₃ FixBuildTools.old_openclip FixBuildTools.new_openclip
             else c₃) := by
      simp [FixBuildTools.modify_webui_packages, h₃]
    rw [hres, FS.read_write_ne _ _ _ _ hne₃, FS.read_write]
  · intro hchanged
    by_cases hm : containsStr c₄ "CPU-only tensor processing fix" = true
    · exact absurd
        (by simp [FixImageGeneration.patch_webui_image_processing, h₄, hm]) hchanged
    · have hm' : containsStr c₄ "CPU-only tensor processing fix" = false :=
        Bool.not_eq_true _ |>.mp hm
      by_cases ha : (FixImageGeneration.patch1_applied c₄
          || FixImageGeneration.patch2_applied c₄) = true
      · have hres : (FixImageGeneration.patch_webui_image_processing fs₄).2
            = (fs₄.write (FixImageGeneration.processing_file ++ ".image_gen_backup")
                (FixImageGeneration.content2 c₄)).write
                FixImageGeneration.processing_file (FixImageGeneration.content2 c₄) := by
          simp [FixImageGeneration.patch_webui_image_processing, h₄, hm', ha]
        have hne₄ : FixImageGeneration.processing_file ++ ".image_gen_backup"
            ≠ FixImageGeneration.processing_file := by decide
        constructor
        · rw [hres, FS.read_write_ne _ _ _ _ hne₄, FS.read_write, FS.read_write]
        · rw [hres, FS.read_write_ne _ _ _ _ hne₄, FS.read_write]
          rw [hres, FS.read_write] at hchanged
          exact hchanged
      · have ha' : (FixImageGeneration.patch1_applied c₄
            || FixImageGeneration.patch2_applied c₄) = false :=
          Bool.not_eq_true _ |>.mp ha
        exact absurd
          (by simp [FixImageGeneration.patch_webui_image_processing, h₄, hm', ha'])
          hchanged
  · intro hchanged
    by_cases hm : containsStr c₅ "CPU image processing fix" = true
    · exact absurd
        (by simp [FixImageGeneration.patch_webui_images_module, h₅, hm]) hchanged
    · have hm' : containsStr c₅ "CPU image processing fix" = false :=
        Bool.not_eq_true _ |>.mp hm
      cases hj : FixImageGeneration.images_import_end c₅ with
      | none =>
        exact absurd
          (by simp [FixImageGeneration.patch_webui_images_module, h₅, hm', hj])
          hchanged
      | some j =>
        by_cases hk : containsStr c₅ "ensure_cpu_compatible_image" = true
        · exact absurd
            (by simp [FixImageGeneration.patch_webui_images_module, h₅, hm', hj, hk])
            hchanged
        · have hk' : containsStr c₅ "ensure_cpu_compatible_image" = false :=
            Bool.not_eq_true _ |>.mp hk
          have hres : (FixImageGeneration.patch_webui_images_module fs₅).2
              = (fs₅.write (FixImageGeneration.images_file ++ ".cpu_fix_backup")
                  (FixImageGeneration.images_patched c₅ j)).write
                  FixImageGeneration.images_file
                  (FixImageGeneration.images_patched c₅ j) := by
            simp [FixImageGeneration.patch_webui_images_module, h₅, hm', hj, hk']
          have hne₅ : FixImageGeneration.images_file ++ ".cpu_fix_backup"
              ≠ FixImageGeneration.images_file := by decide
          constructor
          · rw [hres, FS.read_write_ne _ _ _ _ hne₅, FS.read_write, FS.read_write]
          · rw [hres, FS.read_write_ne _ _ _ _ hne₅, FS.read_write]
            rw [hres, FS.read_write] at hchanged
            exact hchanged

/-- Witness for the amended C9 on concrete files. -/
theorem C9_amended_witness :
    ((FS.empty.write FixSgmOpenclip.sgm_encoder_file
        "import open_clip\nrest").read FixSgmOpenclip.sgm_encoder_file
      = some "import open_clip\nrest")
    ∧ ((FS.empty.write FixGradioCompatibility.extensions_file
        "uses gr.components.IOComponent").read FixGradioCompatibility.extensions_file
      = some "uses gr.components.IOComponent")
    ∧ ((FS.empty.write FixBuildTools.launch_utils_path
        "packages").read FixBuildTools.launch_utils_path = some "packages")
    ∧ ((FS.empty.write FixImageGeneration.processing_file
        "x").read FixImageGeneration.processing_file = some "x")
    ∧ ((FS.empty.write FixImageGeneration.images_file
        "y").read FixImageGeneration.images_file = some "y")
    ∧ ((FixSgmOpenclip.patch_sgm_imports
          (FS.empty.write FixSgmOpenclip.sgm_encoder_file
            "import open_clip\nrest")).2.read
        (FixSgmOpenclip.sgm_encoder_file ++ ".backup")
      = some "import open_clip\nrest") :=
  ⟨FS.read_write _ _ _, FS.read_write _ _ _, FS.read_write _ _ _,
   FS.read_write _ _ _, FS.read_write _ _ _,
   (C9_backup_before_patch_amended
     (FS.empty.write FixSgmOpenclip.sgm_encoder_file "import open_clip\nrest")
     "import open_clip\nrest" (FS.read_write _ _ _)
     (FS.empty.write FixGradioCompatibility.extensions_file
       "uses gr.components.IOComponent")
     "uses gr.components.IOComponent" (FS.read_write _ _ _)
     (FS.empty.write FixBuildTools.launch_utils_path "packages")
     "packages" (FS.read_write _ _ _)
     (FS.empty.write FixImageGeneration.processing_file "x")
     "x" (FS.read_write _ _ _)
     (FS.empty.write FixImageGeneration.images_file "y")
     "y" (FS.read_write _ _ _)).1.2⟩
